import Mathlib

/-!
Verification development for the sep_color compositing plugin
(`sep_color.cpp`, `sep_color_halide.cpp`).

Modelling conventions:
* IEEE float arithmetic is embedded as exact rational arithmetic over `ℚ`;
  float literals are read as the rationals they denote in the source text.
* Library math functions with irrational results (`cosf`, `sinf`, `sqrtf`,
  `Halide::hypot`) are abstracted as parameters (`cs`, `sn`, `sq`, `hyp`),
  standing for whatever value the library returns.
* A pixel buffer row is a `List` of pixels; the per-pixel functions model the
  content of the output location after the call.  In the in-place case the
  output aliases the input, so a skipped write (`if (!in_place)`) leaves the
  location holding the input pixel — the same content the write would have
  stored — hence pass-through branches produce the input pixel in both cases.
* `A_u_char` / `A_u_short` channels are `ℕ`; the C cast of the nonnegative
  float blend result to an unsigned integer truncates, i.e. takes the floor.
-/

namespace SepColor

/-- `PF_Pixel` / `PF_Pixel16`: four unsigned integer channels
(8-bit domain 0..255, 16-bit domain 0..32768). -/
structure NatPixel where
  alpha : ℕ
  red : ℕ
  green : ℕ
  blue : ℕ
deriving DecidableEq, Repr

/-- `PF_PixelFloat`: four float channels, embedded as rationals. -/
structure FloatPixel where
  alpha : ℚ
  red : ℚ
  green : ℚ
  blue : ℚ
deriving DecidableEq, Repr

/-- `INV_255` (sep_color.cpp:74). -/
def INV_255 : ℚ := 1/255

/-- `INV_32768` (sep_color.cpp:75). -/
def INV_32768 : ℚ := 1/32768

/-- `FastBlend` (sep_color.cpp:78-81):
`static_cast<A_u_char>(src + (dst - src) * coverage_alpha + 0.5f)`. -/
def FastBlend (src dst : ℕ) (coverage_alpha : ℚ) : ℕ :=
  (Int.floor ((src : ℚ) + ((dst : ℚ) - (src : ℚ)) * coverage_alpha + 1/2)).toNat

/-- `FastBlend16` (sep_color.cpp:84-87). -/
def FastBlend16 (src dst : ℕ) (coverage_alpha : ℚ) : ℕ :=
  (Int.floor ((src : ℚ) + ((dst : ℚ) - (src : ℚ)) * coverage_alpha + 1/2)).toNat

/-- `FastBlendFloat` (sep_color.cpp:90-93). -/
def FastBlendFloat (src dst coverage_alpha : ℚ) : ℚ :=
  src + (dst - src) * coverage_alpha

/-- Writing the solid colour to RGB while taking alpha from the source pixel
(the pattern `out->red = color.red; ...; out->alpha = in->alpha`). -/
def solidRGB (color inp : NatPixel) : NatPixel :=
  ⟨inp.alpha, color.red, color.green, color.blue⟩

/-- Float variant of `solidRGB`. -/
def solidRGBF (colorF inp : FloatPixel) : FloatPixel :=
  ⟨inp.alpha, colorF.red, colorF.green, colorF.blue⟩

/-- 8-bit blend of all three RGB channels with
`coverage_alpha = coverage * (alpha * INV_255)` (sep_color.cpp:211-215;
the fast paths compute the same product grouped as
`coverage * input_px.alpha * INV_255`, equal in exact arithmetic). -/
def blendPix8 (color inp : NatPixel) (coverage : ℚ) : NatPixel :=
  ⟨inp.alpha,
   FastBlend inp.red color.red (coverage * ((inp.alpha : ℚ) * INV_255)),
   FastBlend inp.green color.green (coverage * ((inp.alpha : ℚ) * INV_255)),
   FastBlend inp.blue color.blue (coverage * ((inp.alpha : ℚ) * INV_255))⟩

/-- 16-bit blend of all three RGB channels,
`coverage_alpha = coverage * (alpha * INV_32768)` (sep_color.cpp:345-349). -/
def blendPix16 (color16 inp : NatPixel) (coverage : ℚ) : NatPixel :=
  ⟨inp.alpha,
   FastBlend16 inp.red color16.red (coverage * ((inp.alpha : ℚ) * INV_32768)),
   FastBlend16 inp.green color16.green (coverage * ((inp.alpha : ℚ) * INV_32768)),
   FastBlend16 inp.blue color16.blue (coverage * ((inp.alpha : ℚ) * INV_32768))⟩

/-- Float blend of all three RGB channels,
`coverage_alpha = coverage * in->alpha` (sep_color.cpp:443-447). -/
def blendPixF (colorF inp : FloatPixel) (coverage : ℚ) : FloatPixel :=
  ⟨inp.alpha,
   FastBlendFloat inp.red colorF.red (coverage * inp.alpha),
   FastBlendFloat inp.green colorF.green (coverage * inp.alpha),
   FastBlendFloat inp.blue colorF.blue (coverage * inp.alpha)⟩

/-- `std::max(-1.0f, std::min(1.0f, v))`. -/
def clampPM1 (v : ℚ) : ℚ := max (-1) (min 1 v)

/-- `coverage = (clamped_dist + 1.0f) * 0.5f`. -/
def covOfClamped (c : ℚ) : ℚ := (c + 1) * (1/2)

/-! ## Edge-width constants

Every render path defines a local `const float edge_width = 0.707f;`
(or the equivalent refcon / Halide expression).  One named constant per
source site. -/

/-- sep_color.cpp:623 (`Render8`). -/
def render8_edge_width : ℚ := 707/1000
/-- sep_color.cpp:840 (`Render16`). -/
def render16_edge_width : ℚ := 707/1000
/-- sep_color.cpp:1050 (`Render32`). -/
def render32_edge_width : ℚ := 707/1000
/-- sep_color.cpp:240, 374, 472 (`rc.edge_width = 0.707f` in the iterate setups). -/
def iterate_edge_width : ℚ := 707/1000
/-- sep_color_halide.cpp:119 (`Halide::Expr edge_width = 0.707f`). -/
def halide_edge_width : ℚ := 707/1000
/-- sep_color.cpp:1950 (`Render8Fast`). -/
def fast8_edge_width : ℚ := 707/1000
/-- sep_color.cpp:1379 (`Render16Fast`). -/
def fast16_edge_width : ℚ := 707/1000
/-- sep_color.cpp:1648 (`Render32Fast`). -/
def fast32_edge_width : ℚ := 707/1000

/-! ## Angle parameter pipeline

The angle parameter arrives as fixed-point degrees (`value >> 16`); the fast,
baseline and Halide paths reduce it with `fmodf(angle_param_value, 360.0f)`
before converting to radians, while the iterate setups convert the raw value
directly. -/

/-- The source literal `3.14159265358979323846f`, read as a rational. -/
def pi_f : ℚ := 314159265358979323846/100000000000000000000

/-- Truncation toward zero, as the C `fmodf` uses. -/
def truncQ (q : ℚ) : ℤ := if 0 ≤ q then Int.floor q else Int.ceil q

/-- C `fmodf(x, y) = x - trunc(x / y) * y`. -/
def fmodQ (x y : ℚ) : ℚ := x - (truncQ (x / y) : ℚ) * y

/-- Degrees-to-radians conversion `* (pi_f / 180.0f)`. -/
def degToRad (d : ℚ) : ℚ := d * (pi_f / 180)

/-- sep_color.cpp:1932-1933 (`Render8Fast`): `fmodf(angle_param_value, 360.0f)`. -/
def render8Fast_angle_deg (v : ℚ) : ℚ := fmodQ v 360
/-- sep_color.cpp:1355-1356 (`Render16Fast`). -/
def render16Fast_angle_deg (v : ℚ) : ℚ := fmodQ v 360
/-- sep_color.cpp:1624-1625 (`Render32Fast`). -/
def render32Fast_angle_deg (v : ℚ) : ℚ := fmodQ v 360
/-- sep_color.cpp:598-600 (`Render8`, baseline). -/
def render8_angle_deg (v : ℚ) : ℚ := fmodQ v 360
/-- sep_color_halide.cpp:103-104 (`SepColorHalide_Render8`). -/
def halide8_angle_deg (v : ℚ) : ℚ := fmodQ v 360
/-- sep_color.cpp:237 (`Render8Iterate`): the raw value is converted directly,
with no modular reduction. -/
def render8Iterate_angle_deg (v : ℚ) : ℚ := v
/-- sep_color.cpp:371 (`Render16Iterate`): no modular reduction. -/
def render16Iterate_angle_deg (v : ℚ) : ℚ := v
/-- sep_color.cpp:469 (`Render32Iterate`): no modular reduction. -/
def render32Iterate_angle_deg (v : ℚ) : ℚ := v

/-! ## Host-iterate backend: refcon and pixel callbacks -/

/-- `IterateRefcon` (sep_color.cpp:124-146). -/
structure IterateRefcon where
  width : ℤ
  height : ℤ
  anchor_x : ℤ
  anchor_y : ℤ
  downsample_x : ℚ
  downsample_y : ℚ
  angle : ℚ
  radius : ℚ
  mode : ℤ
  edge_width : ℚ
  inv_edge_width : ℚ
  color8 : NatPixel
  cs : ℚ
  sn : ℚ
  r_minus2 : ℚ
  r_plus2 : ℚ
  r16 : ℕ
  g16 : ℕ
  b16 : ℕ

/-- `fx = (x - anchor_x) * downsample_x`. -/
def fxOf (rc : IterateRefcon) (x : ℤ) : ℚ :=
  ((x : ℚ) - (rc.anchor_x : ℚ)) * rc.downsample_x

/-- `fy = (y - anchor_y) * downsample_y`. -/
def fyOf (rc : IterateRefcon) (y : ℤ) : ℚ :=
  ((y : ℚ) - (rc.anchor_y : ℚ)) * rc.downsample_y

/-- `rot_x = fx * cs + fy * sn`. -/
def rotXOf (rc : IterateRefcon) (x y : ℤ) : ℚ :=
  fxOf rc x * rc.cs + fyOf rc y * rc.sn

/-- `dist2 = fx * fx + fy * fy`. -/
def dist2Of (rc : IterateRefcon) (x y : ℤ) : ℚ :=
  fxOf rc x * fxOf rc x + fyOf rc y * fyOf rc y

/-- Line-mode coverage of the iterate callbacks:
`sd = rot_x * inv_edge_width; coverage = (sd + 1.0f) * 0.5f` (no clamp). -/
def lineCovI (rc : IterateRefcon) (x y : ℤ) : ℚ :=
  (rotXOf rc x y * rc.inv_edge_width + 1) * (1/2)

/-- Circle-mode coverage of the iterate callbacks, with `sq` standing for
`sqrtf`: `dist = sqrtf(dist2); sd = (radius - dist) * inv_edge_width`. -/
def circleCovI (sq : ℚ → ℚ) (rc : IterateRefcon) (x y : ℤ) : ℚ :=
  ((rc.radius - sq (dist2Of rc x y)) * rc.inv_edge_width + 1) * (1/2)

/-- Common tail of `IteratePix8` (sep_color.cpp:198-216). -/
def iterTail8 (rc : IterateRefcon) (inp : NatPixel) (coverage : ℚ) : NatPixel :=
  if coverage ≤ 1/10000 then inp
  else if 9999/10000 ≤ coverage then solidRGB rc.color8 inp
  else blendPix8 rc.color8 inp coverage

/-- `IteratePix8` (sep_color.cpp:148-217). -/
def IteratePix8 (sq : ℚ → ℚ) (rc : IterateRefcon) (x y : ℤ) (inp : NatPixel) :
    NatPixel :=
  if inp.alpha = 0 then inp
  else if rc.mode = 1 then
    if rotXOf rc x y ≤ -rc.edge_width then inp
    else if rc.edge_width ≤ rotXOf rc x y then solidRGB rc.color8 inp
    else iterTail8 rc inp (lineCovI rc x y)
  else
    if rc.r_plus2 ≤ dist2Of rc x y then inp
    else if dist2Of rc x y ≤ rc.r_minus2 then solidRGB rc.color8 inp
    else iterTail8 rc inp (circleCovI sq rc x y)

/-- The 16-bit solid colour stored in the refcon (`rc.r16/g16/b16`). -/
def solid16 (rc : IterateRefcon) (inp : NatPixel) : NatPixel :=
  ⟨inp.alpha, rc.r16, rc.g16, rc.b16⟩

/-- Refcon colour triple as a pixel, for reuse of the shared blend helper. -/
def rcColor16 (rc : IterateRefcon) : NatPixel := ⟨0, rc.r16, rc.g16, rc.b16⟩

/-- Common tail of `IteratePix16` (sep_color.cpp:332-350). -/
def iterTail16 (rc : IterateRefcon) (inp : NatPixel) (coverage : ℚ) : NatPixel :=
  if coverage ≤ 1/10000 then inp
  else if 9999/10000 ≤ coverage then solid16 rc inp
  else blendPix16 (rcColor16 rc) inp coverage

/-- `IteratePix16` (sep_color.cpp:282-351). -/
def IteratePix16 (sq : ℚ → ℚ) (rc : IterateRefcon) (x y : ℤ) (inp : NatPixel) :
    NatPixel :=
  if inp.alpha = 0 then inp
  else if rc.mode = 1 then
    if rotXOf rc x y ≤ -rc.edge_width then inp
    else if rc.edge_width ≤ rotXOf rc x y then solid16 rc inp
    else iterTail16 rc inp (lineCovI rc x y)
  else
    if rc.r_plus2 ≤ dist2Of rc x y then inp
    else if dist2Of rc x y ≤ rc.r_minus2 then solid16 rc inp
    else iterTail16 rc inp (circleCovI sq rc x y)

/-- The float solid colour computed inside `IteratePix32`
(`r = color8.red * INV_255`, alpha slot unused). -/
def rcColorF (rc : IterateRefcon) : FloatPixel :=
  ⟨0, (rc.color8.red : ℚ) * INV_255, (rc.color8.green : ℚ) * INV_255,
   (rc.color8.blue : ℚ) * INV_255⟩

/-- Coverage of `IteratePix32` (sep_color.cpp:413-426): clamped to [0,1];
`cs`, `sn` stand for `cosf(rc.angle)`, `sinf(rc.angle)` recomputed in the
callback. -/
def cov32 (sq : ℚ → ℚ) (cs sn : ℚ) (rc : IterateRefcon) (x y : ℤ) : ℚ :=
  if rc.mode = 1 then
    max 0 (min 1 (((fxOf rc x * cs + fyOf rc y * sn) * rc.inv_edge_width + 1) * (1/2)))
  else
    max 0 (min 1 (((rc.radius - sq (dist2Of rc x y)) * rc.inv_edge_width + 1) * (1/2)))

/-- `IteratePix32` (sep_color.cpp:403-449). -/
def IteratePix32 (sq : ℚ → ℚ) (cs sn : ℚ) (rc : IterateRefcon) (x y : ℤ)
    (inp : FloatPixel) : FloatPixel :=
  if inp.alpha ≤ 0 then inp
  else
    if cov32 sq cs sn rc x y ≤ 1/10000 then inp
    else if 9999/10000 ≤ cov32 sq cs sn rc x y then solidRGBF (rcColorF rc) inp
    else blendPixF (rcColorF rc) inp (cov32 sq cs sn rc x y)

/-! ## Accelerated (Halide) backend, 8-bit pixel formula -/

/-- Coverage of the Halide 8-bit pipeline (sep_color_halide.cpp:117-137);
`hyp` stands for `Halide::hypot`. -/
def halideCov (hyp : ℚ → ℚ → ℚ) (cs sn dsx dsy : ℚ) (ax ay : ℤ) (radius : ℚ)
    (mode : ℤ) (x y : ℤ) : ℚ :=
  if mode = 1 then
    max 0 (min 1 (((((x : ℚ) - (ax : ℚ)) * dsx * cs + ((y : ℚ) - (ay : ℚ)) * dsy * sn) *
      (1 / halide_edge_width) + 1) * (1/2)))
  else
    max 0 (min 1 (((radius - hyp (((x : ℚ) - (ax : ℚ)) * dsx) (((y : ℚ) - (ay : ℚ)) * dsy)) *
      (1 / halide_edge_width) + 1) * (1/2)))

/-- Per-pixel output of the Halide 8-bit pipeline
(sep_color_halide.cpp:152-166): unconditional blend of RGB with
`cov_a = coverage * (alpha / 255)`, alpha copied through. -/
def halidePix8 (hyp : ℚ → ℚ → ℚ) (cs sn dsx dsy : ℚ) (ax ay : ℤ) (radius : ℚ)
    (mode : ℤ) (col : NatPixel) (x y : ℤ) (inp : NatPixel) : NatPixel :=
  ⟨inp.alpha,
   (Int.floor ((inp.red : ℚ) + ((col.red : ℚ) - (inp.red : ℚ)) *
     (halideCov hyp cs sn dsx dsy ax ay radius mode x y * ((inp.alpha : ℚ) / 255)) + 1/2)).toNat,
   (Int.floor ((inp.green : ℚ) + ((col.green : ℚ) - (inp.green : ℚ)) *
     (halideCov hyp cs sn dsx dsy ax ay radius mode x y * ((inp.alpha : ℚ) / 255)) + 1/2)).toNat,
   (Int.floor ((inp.blue : ℚ) + ((col.blue : ℚ) - (inp.blue : ℚ)) *
     (halideCov hyp cs sn dsx dsy ax ay radius mode x y * ((inp.alpha : ℚ) / 255)) + 1/2)).toNat⟩

/-! ## Manual-loop (fast) backend

Geometry parameters shared by the fast render paths.  `cs`/`sn` stand for
`cosf(angle)` / `sinf(angle)`. -/

structure Geom where
  anchor_x : ℤ
  anchor_y : ℤ
  downsample_x : ℚ
  downsample_y : ℚ
  cs : ℚ
  sn : ℚ
  radius : ℚ

/-- 8-bit→16-bit colour channel conversion
`(c * 32768 + 127) / 255` (sep_color.cpp:1367-1369). -/
def toChan16 (c : ℕ) : ℕ := (c * 32768 + 127) / 255

/-- The converted 16-bit solid colour (`color16`, alpha `PF_MAX_CHAN16`). -/
def color16Of (c : NatPixel) : NatPixel :=
  ⟨32768, toChan16 c.red, toChan16 c.green, toChan16 c.blue⟩

/-- The converted float solid colour (`colorF`, sep_color.cpp:1636-1639). -/
def colorFOf (c : NatPixel) : FloatPixel :=
  ⟨1, (c.red : ℚ) * INV_255, (c.green : ℚ) * INV_255, (c.blue : ℚ) * INV_255⟩

/-- `ry = (y - anchor_y) * downsample_y`. -/
def rowRy (g : Geom) (y : ℤ) : ℚ := ((y : ℚ) - (g.anchor_y : ℚ)) * g.downsample_y

/-- `ry2 = ry * ry`. -/
def rowRy2 (g : Geom) (y : ℤ) : ℚ := rowRy g y * rowRy g y

/-- `rx0 = (0 - anchor_x) * downsample_x`. -/
def rowRx0 (g : Geom) : ℚ := ((0 : ℚ) - (g.anchor_x : ℚ)) * g.downsample_x

/-- `rxN = (width - 1 - anchor_x) * downsample_x`. -/
def rowRxN (g : Geom) (width : ℕ) : ℚ :=
  ((width : ℚ) - 1 - (g.anchor_x : ℚ)) * g.downsample_x

/-- `rot_x0 = rx0 * cs + ry_sn`. -/
def rowRot0 (g : Geom) (y : ℤ) : ℚ := rowRx0 g * g.cs + rowRy g y * g.sn

/-- `rot_xN = rxN * cs + ry_sn`. -/
def rowRotN (g : Geom) (width : ℕ) (y : ℤ) : ℚ :=
  rowRxN g width * g.cs + rowRy g y * g.sn

/-- Circle-mode row minimum of `dist2` (sep_color.cpp:2096-2104):
`ry2` when the anchor column lies inside the row, else the smaller endpoint. -/
def circRowMin (g : Geom) (width : ℕ) (y : ℤ) : ℚ :=
  if 0 ≤ g.anchor_x ∧ g.anchor_x < (width : ℤ) then rowRy2 g y
  else
    min (min (rowRx0 g) (rowRxN g width) * min (rowRx0 g) (rowRxN g width) + rowRy2 g y)
        (max (rowRx0 g) (rowRxN g width) * max (rowRx0 g) (rowRxN g width) + rowRy2 g y)

/-- Circle-mode row maximum of `dist2` (sep_color.cpp:2105). -/
def circRowMax (g : Geom) (width : ℕ) (y : ℤ) : ℚ :=
  max (min (rowRx0 g) (rowRxN g width) * min (rowRx0 g) (rowRxN g width) + rowRy2 g y)
      (max (rowRx0 g) (rowRxN g width) * max (rowRx0 g) (rowRxN g width) + rowRy2 g y)

/-- Common per-pixel tail of `Render8Fast` (sep_color.cpp:2028-2047). -/
def fastTail8 (color inp : NatPixel) (coverage : ℚ) : NatPixel :=
  if coverage ≤ 1/10000 then inp
  else if 9999/10000 ≤ coverage then solidRGB color inp
  else blendPix8 color inp coverage

/-- Common per-pixel tail of `Render16Fast` (sep_color.cpp:1449-1468). -/
def fastTail16 (color16 inp : NatPixel) (coverage : ℚ) : NatPixel :=
  if coverage ≤ 1/10000 then inp
  else if 9999/10000 ≤ coverage then solidRGB color16 inp
  else blendPix16 color16 inp coverage

/-- Common per-pixel tail of `Render32Fast` (sep_color.cpp:1717-1736). -/
def fastTailF (colorF inp : FloatPixel) (coverage : ℚ) : FloatPixel :=
  if coverage ≤ 1/10000 then inp
  else if 9999/10000 ≤ coverage then solidRGBF colorF inp
  else blendPixF colorF inp coverage

/-- Per-pixel body of the `Render8Fast` line loop (sep_color.cpp:1995-2050),
including the per-pixel early-outs on `rotated_x`. -/
def fast8LinePix (color inp : NatPixel) (rotated_x : ℚ) : NatPixel :=
  if inp.alpha = 0 then inp
  else if rotated_x ≤ -fast8_edge_width then inp
  else if fast8_edge_width ≤ rotated_x then solidRGB color inp
  else fastTail8 color inp (covOfClamped (clampPM1 (rotated_x * (1 / fast8_edge_width))))

/-- Per-pixel body of the `Render16Fast` line loop (sep_color.cpp:1434-1471):
no per-pixel early-outs, the signed distance is clamped instead. -/
def fast16LinePix (color16 inp : NatPixel) (rotated_x : ℚ) : NatPixel :=
  if inp.alpha = 0 then inp
  else fastTail16 color16 inp (covOfClamped (clampPM1 (rotated_x * (1 / fast16_edge_width))))

/-- Per-pixel body of the `Render32Fast` line loop (sep_color.cpp:1702-1739). -/
def fast32LinePix (colorF : FloatPixel) (inp : FloatPixel) (rotated_x : ℚ) : FloatPixel :=
  if inp.alpha ≤ 0 then inp
  else fastTailF colorF inp (covOfClamped (clampPM1 (rotated_x * (1 / fast32_edge_width))))

/-- Per-pixel body of the `Render8Fast` circle loop (sep_color.cpp:2127-2163);
`sq` stands for `sqrtf`. -/
def fast8CirclePix (sq : ℚ → ℚ) (radius : ℚ) (color inp : NatPixel) (dist2 : ℚ) :
    NatPixel :=
  if inp.alpha = 0 then inp
  else fastTail8 color inp (covOfClamped (clampPM1 ((radius - sq dist2) * (1 / fast8_edge_width))))

/-- Per-pixel body of the `Render16Fast` circle loop (sep_color.cpp:1542-1578). -/
def fast16CirclePix (sq : ℚ → ℚ) (radius : ℚ) (color16 inp : NatPixel) (dist2 : ℚ) :
    NatPixel :=
  if inp.alpha = 0 then inp
  else fastTail16 color16 inp (covOfClamped (clampPM1 ((radius - sq dist2) * (1 / fast16_edge_width))))

/-- Per-pixel body of the `Render32Fast` circle loop (sep_color.cpp:1809-1845). -/
def fast32CirclePix (sq : ℚ → ℚ) (radius : ℚ) (colorF : FloatPixel) (inp : FloatPixel)
    (dist2 : ℚ) : FloatPixel :=
  if inp.alpha ≤ 0 then inp
  else fastTailF colorF inp (covOfClamped (clampPM1 ((radius - sq dist2) * (1 / fast32_edge_width))))

/-- The line-mode pixel loop, carrying `rotated_x += rot_dx`. -/
def fast8LineLoop (color : NatPixel) (rot_dx : ℚ) :
    List NatPixel → ℚ → List NatPixel
  | [], _ => []
  | p :: rest, rot => fast8LinePix color p rot :: fast8LineLoop color rot_dx rest (rot + rot_dx)

/-- 16-bit line-mode pixel loop. -/
def fast16LineLoop (color16 : NatPixel) (rot_dx : ℚ) :
    List NatPixel → ℚ → List NatPixel
  | [], _ => []
  | p :: rest, rot => fast16LinePix color16 p rot :: fast16LineLoop color16 rot_dx rest (rot + rot_dx)

/-- Float line-mode pixel loop. -/
def fast32LineLoop (colorF : FloatPixel) (rot_dx : ℚ) :
    List FloatPixel → ℚ → List FloatPixel
  | [], _ => []
  | p :: rest, rot => fast32LinePix colorF p rot :: fast32LineLoop colorF rot_dx rest (rot + rot_dx)

/-- The circle-mode pixel loop, carrying `rx += dx` and the incremental
`dist2 += twodx * (rx - dx) + dx2` (the `rx` in that source expression is the
already-incremented value, so the increment adds `2*dx*rx_old + dx*dx`). -/
def fast8CircleLoop (sq : ℚ → ℚ) (radius : ℚ) (color : NatPixel) (dx : ℚ) :
    List NatPixel → ℚ → ℚ → List NatPixel
  | [], _, _ => []
  | p :: rest, rx, dist2 =>
      fast8CirclePix sq radius color p dist2 ::
        fast8CircleLoop sq radius color dx rest (rx + dx) (dist2 + 2 * dx * rx + dx * dx)

/-- 16-bit circle-mode pixel loop. -/
def fast16CircleLoop (sq : ℚ → ℚ) (radius : ℚ) (color16 : NatPixel) (dx : ℚ) :
    List NatPixel → ℚ → ℚ → List NatPixel
  | [], _, _ => []
  | p :: rest, rx, dist2 =>
      fast16CirclePix sq radius color16 p dist2 ::
        fast16CircleLoop sq radius color16 dx rest (rx + dx) (dist2 + 2 * dx * rx + dx * dx)

/-- Float circle-mode pixel loop. -/
def fast32CircleLoop (sq : ℚ → ℚ) (radius : ℚ) (colorF : FloatPixel) (dx : ℚ) :
    List FloatPixel → ℚ → ℚ → List FloatPixel
  | [], _, _ => []
  | p :: rest, rx, dist2 =>
      fast32CirclePix sq radius colorF p dist2 ::
        fast32CircleLoop sq radius colorF dx rest (rx + dx) (dist2 + 2 * dx * rx + dx * dx)

/-- One row of `Render8Fast` line mode (sep_color.cpp:1962-2051), including
the row-level early-outs: whole row outside ⇒ the row passes through
unchanged (`memcpy`, or skipped when in place); whole row inside ⇒ solid
fill that keeps each pixel's alpha. -/
def fast8LineRow (g : Geom) (color : NatPixel) (inRow : List NatPixel) (y : ℤ) :
    List NatPixel :=
  if max (rowRot0 g y) (rowRotN g inRow.length y) ≤ -fast8_edge_width then inRow
  else if fast8_edge_width ≤ min (rowRot0 g y) (rowRotN g inRow.length y) then
    inRow.map (fun p => solidRGB color p)
  else fast8LineLoop color (g.downsample_x * g.cs) inRow (rowRot0 g y)

/-- One row of `Render16Fast` line mode (sep_color.cpp:1391-1472). -/
def fast16LineRow (g : Geom) (color16 : NatPixel) (inRow : List NatPixel) (y : ℤ) :
    List NatPixel :=
  if max (rowRot0 g y) (rowRotN g inRow.length y) ≤ -fast16_edge_width then inRow
  else if fast16_edge_width ≤ min (rowRot0 g y) (rowRotN g inRow.length y) then
    inRow.map (fun p => solidRGB color16 p)
  else fast16LineLoop color16 (g.downsample_x * g.cs) inRow (rowRot0 g y)

/-- One row of `Render32Fast` line mode (sep_color.cpp:1660-1740). -/
def fast32LineRow (g : Geom) (colorF : FloatPixel) (inRow : List FloatPixel) (y : ℤ) :
    List FloatPixel :=
  if max (rowRot0 g y) (rowRotN g inRow.length y) ≤ -fast32_edge_width then inRow
  else if fast32_edge_width ≤ min (rowRot0 g y) (rowRotN g inRow.length y) then
    inRow.map (fun p => solidRGBF colorF p)
  else fast32LineLoop colorF (g.downsample_x * g.cs) inRow (rowRot0 g y)

/-- One row of `Render8Fast` circle mode (sep_color.cpp:2084-2168). -/
def fast8CircleRow (sq : ℚ → ℚ) (g : Geom) (color : NatPixel)
    (inRow : List NatPixel) (y : ℤ) : List NatPixel :=
  if (g.radius + fast8_edge_width) * (g.radius + fast8_edge_width) ≤
      circRowMin g inRow.length y then inRow
  else if circRowMax g inRow.length y ≤
      (g.radius - fast8_edge_width) * (g.radius - fast8_edge_width) then
    inRow.map (fun p => solidRGB color p)
  else fast8CircleLoop sq g.radius color g.downsample_x inRow (rowRx0 g)
    (rowRx0 g * rowRx0 g + rowRy2 g y)

/-- One row of `Render16Fast` circle mode (sep_color.cpp:1500-1583). -/
def fast16CircleRow (sq : ℚ → ℚ) (g : Geom) (color16 : NatPixel)
    (inRow : List NatPixel) (y : ℤ) : List NatPixel :=
  if (g.radius + fast16_edge_width) * (g.radius + fast16_edge_width) ≤
      circRowMin g inRow.length y then inRow
  else if circRowMax g inRow.length y ≤
      (g.radius - fast16_edge_width) * (g.radius - fast16_edge_width) then
    inRow.map (fun p => solidRGB color16 p)
  else fast16CircleLoop sq g.radius color16 g.downsample_x inRow (rowRx0 g)
    (rowRx0 g * rowRx0 g + rowRy2 g y)

/-- One row of `Render32Fast` circle mode (sep_color.cpp:1768-1850). -/
def fast32CircleRow (sq : ℚ → ℚ) (g : Geom) (colorF : FloatPixel)
    (inRow : List FloatPixel) (y : ℤ) : List FloatPixel :=
  if (g.radius + fast32_edge_width) * (g.radius + fast32_edge_width) ≤
      circRowMin g inRow.length y then inRow
  else if circRowMax g inRow.length y ≤
      (g.radius - fast32_edge_width) * (g.radius - fast32_edge_width) then
    inRow.map (fun p => solidRGBF colorF p)
  else fast32CircleLoop sq g.radius colorF g.downsample_x inRow (rowRx0 g)
    (rowRx0 g * rowRx0 g + rowRy2 g y)

/-! ## Worker loops over row ranges

A worker of the fast paths processes its contiguous row range
`[s, s+fuel)`.  `abort` models `PF_ABORT(in_data)` polled once per row,
returning the host error code (0 = `PF_Err_NONE`); `inRow y` is row `y` of
the input, `prevRow y` the pre-call content of output row `y`.  The result is
the final error and the final contents of the worker's output rows.

`Render16Fast` and `Render32Fast` poll the abort interface before each row
(sep_color.cpp:1393-1399, 1502-1507, 1662-1667, 1770-1775); on a nonzero
code the worker stops, leaving the remaining rows untouched.
`Render8Fast` never polls it: its workers receive `in_data` but contain no
`PF_ABORT` call (sep_color.cpp:1960-2052, 2082-2169). -/

/-- Pre-call contents of output rows `s .. s+n-1`. -/
def prevSlice (prevRow : ℕ → List NatPixel) (s n : ℕ) : List (List NatPixel) :=
  (List.range n).map (fun i => prevRow (s + i))

/-- Float variant of `prevSlice`. -/
def prevSliceF (prevRow : ℕ → List FloatPixel) (s n : ℕ) : List (List FloatPixel) :=
  (List.range n).map (fun i => prevRow (s + i))

/-- `Render16Fast` line-mode worker: abort polled before each row. -/
def fast16LineWorker (abort : ℕ → ℤ) (g : Geom) (color16 : NatPixel)
    (inRow prevRow : ℕ → List NatPixel) (s : ℕ) : ℕ → ℤ × List (List NatPixel)
  | 0 => (0, [])
  | n + 1 =>
    if abort s ≠ 0 then (abort s, prevSlice prevRow s (n + 1))
    else
      let rest := fast16LineWorker abort g color16 inRow prevRow (s + 1) n
      (rest.1, fast16LineRow g color16 (inRow s) (s : ℤ) :: rest.2)

/-- `Render16Fast` circle-mode worker. -/
def fast16CircleWorker (abort : ℕ → ℤ) (sq : ℚ → ℚ) (g : Geom) (color16 : NatPixel)
    (inRow prevRow : ℕ → List NatPixel) (s : ℕ) : ℕ → ℤ × List (List NatPixel)
  | 0 => (0, [])
  | n + 1 =>
    if abort s ≠ 0 then (abort s, prevSlice prevRow s (n + 1))
    else
      let rest := fast16CircleWorker abort sq g color16 inRow prevRow (s + 1) n
      (rest.1, fast16CircleRow sq g color16 (inRow s) (s : ℤ) :: rest.2)

/-- `Render32Fast` line-mode worker. -/
def fast32LineWorker (abort : ℕ → ℤ) (g : Geom) (colorF : FloatPixel)
    (inRow prevRow : ℕ → List FloatPixel) (s : ℕ) : ℕ → ℤ × List (List FloatPixel)
  | 0 => (0, [])
  | n + 1 =>
    if abort s ≠ 0 then (abort s, prevSliceF prevRow s (n + 1))
    else
      let rest := fast32LineWorker abort g colorF inRow prevRow (s + 1) n
      (rest.1, fast32LineRow g colorF (inRow s) (s : ℤ) :: rest.2)

/-- `Render32Fast` circle-mode worker. -/
def fast32CircleWorker (abort : ℕ → ℤ) (sq : ℚ → ℚ) (g : Geom) (colorF : FloatPixel)
    (inRow prevRow : ℕ → List FloatPixel) (s : ℕ) : ℕ → ℤ × List (List FloatPixel)
  | 0 => (0, [])
  | n + 1 =>
    if abort s ≠ 0 then (abort s, prevSliceF prevRow s (n + 1))
    else
      let rest := fast32CircleWorker abort sq g colorF inRow prevRow (s + 1) n
      (rest.1, fast32CircleRow sq g colorF (inRow s) (s : ℤ) :: rest.2)

/-- `Render8Fast` line-mode worker: receives the host interface (`abort`,
i.e. `in_data`) but never polls it — there is no `PF_ABORT` call in the
8-bit workers — so it processes every row and returns `PF_Err_NONE`. -/
def fast8LineWorker (abort : ℕ → ℤ) (g : Geom) (color : NatPixel)
    (inRow : ℕ → List NatPixel) (s : ℕ) : ℕ → ℤ × List (List NatPixel)
  | 0 => (0, [])
  | n + 1 =>
    let rest := fast8LineWorker abort g color inRow (s + 1) n
    (rest.1, fast8LineRow g color (inRow s) (s : ℤ) :: rest.2)

/-- `Render8Fast` circle-mode worker: likewise no abort poll. -/
def fast8CircleWorker (abort : ℕ → ℤ) (sq : ℚ → ℚ) (g : Geom) (color : NatPixel)
    (inRow : ℕ → List NatPixel) (s : ℕ) : ℕ → ℤ × List (List NatPixel)
  | 0 => (0, [])
  | n + 1 =>
    let rest := fast8CircleWorker abort sq g color inRow (s + 1) n
    (rest.1, fast8CircleRow sq g color (inRow s) (s : ℤ) :: rest.2)

/-! ## Row partition of the manual-loop backend

`Render8Fast`/`Render16Fast`/`Render32Fast` (sep_color.cpp:1943-1944,
1372-1373, 1641-1642, 2054-2064): thread count clamped to
`min(max(1, hardware_concurrency), max(1, height))`, rows split into
contiguous `rows_per_thread`-blocks, a worker spawned only when its start
row lies below `height`. -/

/-- `num_threads = std::min(std::max(1u, hardware_concurrency()), std::max(1, height))`. -/
def num_threads (hw height : ℕ) : ℕ := min (max 1 hw) (max 1 height)

/-- `rows_per_thread = (height + num_threads - 1) / num_threads`. -/
def rows_per_thread (height T : ℕ) : ℕ := (height + T - 1) / T

/-- Row range of worker `t`: `[t * rpt, min(t * rpt + rpt, height))`. -/
def threadRowRange (rpt height t : ℕ) : ℕ × ℕ :=
  (t * rpt, min (t * rpt + rpt) height)

/-- The set of loop indices `t < T` whose worker is actually spawned
(`start_y < height`). -/
def spawnedThreads (T rpt height : ℕ) : Finset ℕ :=
  (Finset.range T).filter (fun t => t * rpt < height)

/-! ## Dispatcher (`Render`, sep_color.cpp:1212-1307)

Embedded under the repository's default feature switches
(`SEP_COLOR_USE_BASELINE 0`, `SEP_COLOR_ENABLE_HALIDE 1`,
`SEP_COLOR_USE_PF_ITERATE 1`): each format first tries the Halide backend
and, when it returns `false`, falls through to the host-iterate backend. -/

/-- Pixel-format tag chosen by `Render`. -/
inductive PixelFormat
  | int8
  | int16
  | float32
deriving DecidableEq, Repr

/-- The execution backend that ends up performing the render. -/
inductive Backend
  | accelerated
  | hostIterate
  | manualLoop
deriving DecidableEq, Repr

/-- Outcome of the Halide 8-bit attempt: the pipeline realises successfully,
reports itself unavailable (`runtime_loaded == false`), or throws
(`Halide::Error` / `std::exception`). -/
inductive HalideOutcome
  | success
  | unavailable
  | threw
deriving DecidableEq, Repr

/-- Return value of `SepColorHalide_Render8` (sep_color_halide.cpp:78-206):
`true` only on success; an unavailable runtime returns `false`, and both
catch blocks turn an exception into `false`. -/
def halide8Result : HalideOutcome → Bool
  | .success => true
  | .unavailable => false
  | .threw => false

/-- Return value of `SepColorHalide_Render16` (sep_color_halide.cpp:208-235):
unconditionally `false` (16-bit pipeline not implemented). -/
def halide16Result : Bool := false

/-- Return value of `SepColorHalide_Render32` (sep_color_halide.cpp:237-264):
unconditionally `false` (float pipeline not implemented). -/
def halide32Result : Bool := false

/-- Which backend `Render` ends up using for a format, given the outcome of
the Halide attempt (sep_color.cpp:1227-1303, default feature switches). -/
def renderBackend : PixelFormat → HalideOutcome → Backend
  | .int8, o => if halide8Result o then .accelerated else .hostIterate
  | .int16, _ => if halide16Result then .accelerated else .hostIterate
  | .float32, _ => if halide32Result then .accelerated else .hostIterate

/-- Format classification of `Render` (sep_color.cpp:1220-1286):
`PF_WORLD_IS_DEEP` selects 16-bit; otherwise the buffer is 32-bit float
exactly when `width > 0 && rowbytes > 0 && rowbytes / width >= 16`,
and 8-bit in every other case. -/
def classifyFormat (isDeep : Bool) (width rowbytes : ℤ) : PixelFormat :=
  if isDeep then .int16
  else if 0 < width ∧ 0 < rowbytes ∧ 16 ≤ rowbytes / width then .float32
  else .int8

/-! ## Host-iterate backend setup (`Render8Iterate`, sep_color.cpp:219-278)

The observable host interactions of `Render8Iterate`: it builds the region
of interest and invokes the suite `iterate` call on it.  There is no other
host call — in particular no frame copy. -/

/-- A host-buffer operation issued by a render path. -/
inductive HostCall
  | copyFrame
  | iterate (left top right bottom : ℤ)
deriving DecidableEq, Repr

/-- The region of interest `Render8Iterate` hands to the iteration suite
(sep_color.cpp:253-266): the full frame for Line mode; for Circle mode the
box `anchor ± (radius + edge_width) / max(downsample, 1e-6)` floored/ceiled
and clamped to the image bounds. -/
def render8IterateArea (width height ax ay : ℤ) (radius dsx dsy : ℚ)
    (mode : ℤ) : ℤ × ℤ × ℤ × ℤ :=
  if mode = 1 then (0, 0, width, height)
  else
    (max 0 (Int.floor ((ax : ℚ) - (radius + iterate_edge_width) / max dsx (1/1000000))),
     max 0 (Int.floor ((ay : ℚ) - (radius + iterate_edge_width) / max dsy (1/1000000))),
     min width (Int.ceil ((ax : ℚ) + (radius + iterate_edge_width) / max dsx (1/1000000)) + 1),
     min height (Int.ceil ((ay : ℚ) + (radius + iterate_edge_width) / max dsy (1/1000000)) + 1))

/-- The host-buffer operations `Render8Iterate` performs, in order
(sep_color.cpp:252-277): exactly one `iterate` over the region of interest. -/
def render8IterateCalls (width height ax ay : ℤ) (radius dsx dsy : ℚ)
    (mode : ℤ) : List HostCall :=
  [HostCall.iterate
    (render8IterateArea width height ax ay radius dsx dsy mode).1
    (render8IterateArea width height ax ay radius dsx dsy mode).2.1
    (render8IterateArea width height ax ay radius dsx dsy mode).2.2.1
    (render8IterateArea width height ax ay radius dsx dsy mode).2.2.2]

/-! ## Spec-side definitions

These restate the blend contract in the words of the specification
(§4.3): `result = src + (dst - src) * effective_coverage`, with
`effective_coverage = coverage * normalized_source_alpha`, rounded by adding
0.5 and truncating for the integer formats and unrounded for float.  They
are compared against the kernel branch output. -/

/-- Spec rounding rule for the integer formats: add 0.5 and truncate. -/
def specRoundInt (v : ℚ) : ℕ := (Int.floor (v + 1/2)).toNat

/-- Spec blend formula for one channel. -/
def specBlendChan (src dst eff : ℚ) : ℚ := src + (dst - src) * eff

/-- Spec blended 8-bit pixel at a given coverage:
`effective coverage = coverage * (alpha / 255)`. -/
def specPix8 (inp dst : NatPixel) (coverage : ℚ) : NatPixel :=
  ⟨inp.alpha,
   specRoundInt (specBlendChan (inp.red : ℚ) (dst.red : ℚ) (coverage * ((inp.alpha : ℚ) / 255))),
   specRoundInt (specBlendChan (inp.green : ℚ) (dst.green : ℚ) (coverage * ((inp.alpha : ℚ) / 255))),
   specRoundInt (specBlendChan (inp.blue : ℚ) (dst.blue : ℚ) (coverage * ((inp.alpha : ℚ) / 255)))⟩

/-- Spec blended 16-bit pixel: `effective coverage = coverage * (alpha / 32768)`. -/
def specPix16 (inp dst : NatPixel) (coverage : ℚ) : NatPixel :=
  ⟨inp.alpha,
   specRoundInt (specBlendChan (inp.red : ℚ) (dst.red : ℚ) (coverage * ((inp.alpha : ℚ) / 32768))),
   specRoundInt (specBlendChan (inp.green : ℚ) (dst.green : ℚ) (coverage * ((inp.alpha : ℚ) / 32768))),
   specRoundInt (specBlendChan (inp.blue : ℚ) (dst.blue : ℚ) (coverage * ((inp.alpha : ℚ) / 32768)))⟩

/-- Spec blended float pixel: alpha is already normalized, no rounding. -/
def specPixF (inp dst : FloatPixel) (coverage : ℚ) : FloatPixel :=
  ⟨inp.alpha,
   specBlendChan inp.red dst.red (coverage * inp.alpha),
   specBlendChan inp.green dst.green (coverage * inp.alpha),
   specBlendChan inp.blue dst.blue (coverage * inp.alpha)⟩

/-- Spec-side row-partition property (§4.5/§5): the spawned workers receive
contiguous blocks of at most `rows_per_thread` rows; the blocks are pairwise
disjoint and together cover `[0, height)` exactly; between 1 and `height`
workers are spawned. -/
def specRowPartitionOK (hw height : ℕ) : Prop :=
  (∀ t ∈ spawnedThreads (num_threads hw height)
      (rows_per_thread height (num_threads hw height)) height,
    (threadRowRange (rows_per_thread height (num_threads hw height)) height t).1 <
      (threadRowRange (rows_per_thread height (num_threads hw height)) height t).2 ∧
    (threadRowRange (rows_per_thread height (num_threads hw height)) height t).2 -
      (threadRowRange (rows_per_thread height (num_threads hw height)) height t).1 ≤
        rows_per_thread height (num_threads hw height)) ∧
  (∀ t₁ ∈ spawnedThreads (num_threads hw height)
      (rows_per_thread height (num_threads hw height)) height,
   ∀ t₂ ∈ spawnedThreads (num_threads hw height)
      (rows_per_thread height (num_threads hw height)) height,
    t₁ ≠ t₂ → ∀ y < height,
      ¬((threadRowRange (rows_per_thread height (num_threads hw height)) height t₁).1 ≤ y ∧
        y < (threadRowRange (rows_per_thread height (num_threads hw height)) height t₁).2 ∧
        (threadRowRange (rows_per_thread height (num_threads hw height)) height t₂).1 ≤ y ∧
        y < (threadRowRange (rows_per_thread height (num_threads hw height)) height t₂).2)) ∧
  (∀ y < height, ∃ t ∈ spawnedThreads (num_threads hw height)
      (rows_per_thread height (num_threads hw height)) height,
    (threadRowRange (rows_per_thread height (num_threads hw height)) height t).1 ≤ y ∧
      y < (threadRowRange (rows_per_thread height (num_threads hw height)) height t).2) ∧
  1 ≤ (spawnedThreads (num_threads hw height)
      (rows_per_thread height (num_threads hw height)) height).card ∧
  (spawnedThreads (num_threads hw height)
      (rows_per_thread height (num_threads hw height)) height).card ≤ height

/-! ## Concrete sample inputs used by evaluation witnesses and counterexamples -/

/-- Sample opaque 8-bit pixel. -/
def pxA : NatPixel := ⟨255, 10, 20, 30⟩

/-- Sample fully transparent 8-bit pixel with nonzero RGB. -/
def pxT : NatPixel := ⟨0, 5, 6, 7⟩

/-- Sample float pixel with positive alpha. -/
def pxF : FloatPixel := ⟨1/2, 1/10, 2/10, 3/10⟩

/-- Sample fully transparent float pixel with nonzero RGB. -/
def pxFT : FloatPixel := ⟨0, 1/10, 2/10, 3/10⟩

/-- Sample UI colour (a red). -/
def colA : NatPixel := ⟨255, 255, 0, 0⟩

/-- Sample line-mode refcon (angle 0, anchor at origin, unit downsample). -/
def rcLine : IterateRefcon :=
  ⟨4, 4, 0, 0, 1, 1, 0, 2, 1, 707/1000, 1000/707, colA, 1, 0,
   (2 - 707/1000) * (2 - 707/1000), (2 + 707/1000) * (2 + 707/1000),
   toChan16 255, toChan16 0, toChan16 0⟩

/-- Sample circle-mode refcon (radius 2). -/
def rcCirc : IterateRefcon :=
  ⟨4, 4, 0, 0, 1, 1, 0, 2, 2, 707/1000, 1000/707, colA, 1, 0,
   (2 - 707/1000) * (2 - 707/1000), (2 + 707/1000) * (2 + 707/1000),
   toChan16 255, toChan16 0, toChan16 0⟩

/-- Value of `sqrtf` at the sample squared distance 4. -/
def sq4 : ℚ → ℚ := fun _ => 2

/-- Sample geometry for the fast paths (anchor origin, angle 0, radius 2). -/
def geomA : Geom := ⟨0, 0, 1, 1, 1, 0, 2⟩

/-- Geometry whose row 0 lies entirely inside the line half-plane
(anchor_x = -10, angle 0), driving the row-level solid fill. -/
def geomFill : Geom := ⟨-10, 0, 1, 1, 1, 0, 2⟩

/-! ## Shared helper lemmas -/

theorem blendPix8_eq_spec (color inp : NatPixel) (cov : ℚ) :
    blendPix8 color inp cov = specPix8 inp color cov := by
  have h : cov * ((inp.alpha : ℚ) * INV_255) = cov * ((inp.alpha : ℚ) / 255) := by
    rw [INV_255, mul_one_div]
  simp only [blendPix8, specPix8, FastBlend, specRoundInt, specBlendChan, h]

theorem blendPix16_eq_spec (color16 inp : NatPixel) (cov : ℚ) :
    blendPix16 color16 inp cov = specPix16 inp color16 cov := by
  have h : cov * ((inp.alpha : ℚ) * INV_32768) = cov * ((inp.alpha : ℚ) / 32768) := by
    rw [INV_32768, mul_one_div]
  simp only [blendPix16, specPix16, FastBlend16, specRoundInt, specBlendChan, h]

theorem blendPixF_eq_spec (colorF inp : FloatPixel) (cov : ℚ) :
    blendPixF colorF inp cov = specPixF inp colorF cov := by
  simp only [blendPixF, specPixF, FastBlendFloat, specBlendChan]

/-! ## C4 — backend dispatch order and fallback -/

/-- C4: the dispatcher tries the accelerated backend first and falls through
to the host-iterate backend; the Int16 and Float32 accelerated entry points
always return `false` (unsupported), and an exception in the 8-bit Halide
path is caught (returned as `false`), so the render still completes through
the slower backend — no Halide failure is surfaced. -/
theorem C4_backend_fallback :
    (∀ o, renderBackend .int16 o = .hostIterate) ∧
    (∀ o, renderBackend .float32 o = .hostIterate) ∧
    halide16Result = false ∧
    halide32Result = false ∧
    (∀ o, renderBackend .int8 o = .accelerated ∨ renderBackend .int8 o = .hostIterate) ∧
    renderBackend .int8 .threw = .hostIterate ∧
    renderBackend .int8 .unavailable = .hostIterate := by
  refine ⟨fun o => rfl, fun o => rfl, rfl, rfl, fun o => ?_, rfl, rfl⟩
  cases o <;> simp [renderBackend, halide8Result]

/-! ## C6 — the anti-aliasing edge width -/

/-- C6 counterexample: the edge width the code uses is the literal `0.707f`,
which is not the claimed constant `1/√2`. -/
theorem C6_counterexample : ((fast8_edge_width : ℚ) : ℝ) ≠ (Real.sqrt 2)⁻¹ := by
  intro h
  have h2 : ((fast8_edge_width : ℚ) : ℝ) ^ 2 = ((Real.sqrt 2)⁻¹) ^ 2 := by rw [h]
  rw [show ((fast8_edge_width : ℚ) : ℝ) = 707/1000 by norm_num [fast8_edge_width]] at h2
  rw [inv_pow, Real.sq_sqrt (by norm_num : (0:ℝ) ≤ 2)] at h2
  norm_num at h2

/-- C6 amended: the edge width is the fixed positive constant `0.707`
(approximately `1/√2`), identical at every source site — all three baseline
renderers, the iterate setups, the Halide pipeline, and all three fast
renderers. -/
theorem C6_amended :
    render8_edge_width = 707/1000 ∧
    render16_edge_width = 707/1000 ∧
    render32_edge_width = 707/1000 ∧
    iterate_edge_width = 707/1000 ∧
    halide_edge_width = 707/1000 ∧
    fast8_edge_width = 707/1000 ∧
    fast16_edge_width = 707/1000 ∧
    fast32_edge_width = 707/1000 ∧
    (0 : ℚ) < fast8_edge_width := by
  refine ⟨rfl, rfl, rfl, rfl, rfl, rfl, rfl, rfl, by norm_num [fast8_edge_width]⟩

/-! ## C7 — host-iterate circle region of interest -/

/-- C7 counterexample: at a concrete Circle-mode request the host-iterate
path issues no frame copy — its only host-buffer operation is the `iterate`
over the bounding box, so the claimed whole-frame bulk copy does not happen. -/
theorem C7_counterexample :
    HostCall.copyFrame ∉ render8IterateCalls 4 4 2 2 1 1 1 2 := by
  decide

/-- C7 amended: for Circle mode the region of interest is the bounding box
`anchor ± (radius + edge_width) / max(downsample, 1e-6)`, floored/ceiled and
clamped to the image bounds; no bulk copy of the frame is performed first —
the single host call is the `iterate` over that box, so pixels outside the
box are simply never written by this path. -/
theorem C7_amended (width height ax ay : ℤ) (radius dsx dsy : ℚ) (mode : ℤ)
    (hm : mode ≠ 1) :
    render8IterateCalls width height ax ay radius dsx dsy mode =
      [HostCall.iterate
        (max 0 (Int.floor ((ax : ℚ) - (radius + iterate_edge_width) / max dsx (1/1000000))))
        (max 0 (Int.floor ((ay : ℚ) - (radius + iterate_edge_width) / max dsy (1/1000000))))
        (min width (Int.ceil ((ax : ℚ) + (radius + iterate_edge_width) / max dsx (1/1000000)) + 1))
        (min height (Int.ceil ((ay : ℚ) + (radius + iterate_edge_width) / max dsy (1/1000000)) + 1))] ∧
    HostCall.copyFrame ∉ render8IterateCalls width height ax ay radius dsx dsy mode ∧
    0 ≤ (render8IterateArea width height ax ay radius dsx dsy mode).1 ∧
    0 ≤ (render8IterateArea width height ax ay radius dsx dsy mode).2.1 ∧
    (render8IterateArea width height ax ay radius dsx dsy mode).2.2.1 ≤ width ∧
    (render8IterateArea width height ax ay radius dsx dsy mode).2.2.2 ≤ height := by
  refine ⟨?_, ?_, ?_, ?_, ?_, ?_⟩
  · simp [render8IterateCalls, render8IterateArea, hm]
  · simp [render8IterateCalls]
  · simp [render8IterateArea, hm]
  · simp [render8IterateArea, hm]
  · simp [render8IterateArea, hm]
  · simp [render8IterateArea, hm]

/-- C7 witness: the amended statement evaluated at the concrete Circle-mode
request of the counterexample. -/
theorem C7_witness :
    render8IterateCalls 4 4 2 2 1 1 1 2 =
      [HostCall.iterate
        (max 0 (Int.floor ((2 : ℚ) - (1 + iterate_edge_width) / max 1 (1/1000000))))
        (max 0 (Int.floor ((2 : ℚ) - (1 + iterate_edge_width) / max 1 (1/1000000))))
        (min 4 (Int.ceil ((2 : ℚ) + (1 + iterate_edge_width) / max 1 (1/1000000)) + 1))
        (min 4 (Int.ceil ((2 : ℚ) + (1 + iterate_edge_width) / max 1 (1/1000000)) + 1))] :=
  (C7_amended 4 4 2 2 1 1 1 2 (by decide)).1

/-! ## C9 — modular reduction of the angle parameter -/

/-- C9 counterexample: the host-iterate setup converts the raw angle
parameter to radians without reduction — at 450 degrees it feeds a different
trigonometric argument than the reduced 90 degrees would give, so the
claimed always-reduce property fails for that backend. -/
theorem C9_counterexample :
    degToRad (render8Iterate_angle_deg 450) ≠ degToRad (fmodQ 450 360) := by
  norm_num [degToRad, render8Iterate_angle_deg, fmodQ, truncQ, pi_f]

/-- C9 amended: the baseline, fast and Halide paths reduce the angle modulo
360 degrees before the radian conversion (and that reduction is 360-periodic
on nonnegative angles), while the three host-iterate setups convert the raw
parameter with no reduction. -/
theorem C9_amended :
    (∀ v : ℚ,
      render8Fast_angle_deg v = fmodQ v 360 ∧
      render16Fast_angle_deg v = fmodQ v 360 ∧
      render32Fast_angle_deg v = fmodQ v 360 ∧
      render8_angle_deg v = fmodQ v 360 ∧
      halide8_angle_deg v = fmodQ v 360 ∧
      render8Iterate_angle_deg v = v ∧
      render16Iterate_angle_deg v = v ∧
      render32Iterate_angle_deg v = v) ∧
    (∀ v : ℚ, 0 ≤ v → render8Fast_angle_deg (v + 360) = render8Fast_angle_deg v) := by
  constructor
  · exact fun v => ⟨rfl, rfl, rfl, rfl, rfl, rfl, rfl, rfl⟩
  · intro v hv
    have hdiv : (v + 360) / 360 = v / 360 + 1 := by ring
    have h0 : (0 : ℚ) ≤ v / 360 := by positivity
    have h1 : (0 : ℚ) ≤ v / 360 + 1 := by linarith
    simp only [render8Fast_angle_deg, fmodQ, truncQ, hdiv, if_pos h0, if_pos h1,
      Int.floor_add_one]
    push_cast
    ring

/-- C9 witness: the reduction property of the fast path applied at 45°. -/
theorem C9_witness : render8Fast_angle_deg (45 + 360) = render8Fast_angle_deg 45 :=
  C9_amended.2 45 (by norm_num)

/-! ## C10 — pixel format classification -/

/-- C10: when the world is not deep, the buffer is classified 32-bit float
exactly when `width > 0`, `rowbytes > 0` and `rowbytes / width ≥ 16`; in
every other case — including zero width or zero rowbytes — it is processed
as 8-bit. -/
theorem C10_format_classification (width rowbytes : ℤ) :
    (classifyFormat false width rowbytes = .float32 ↔
      0 < width ∧ 0 < rowbytes ∧ 16 ≤ rowbytes / width) ∧
    (¬(0 < width ∧ 0 < rowbytes ∧ 16 ≤ rowbytes / width) →
      classifyFormat false width rowbytes = .int8) ∧
    classifyFormat false 0 rowbytes = .int8 ∧
    classifyFormat false width 0 = .int8 := by
  refine ⟨?_, ?_, ?_, ?_⟩
  · by_cases hc : 0 < width ∧ 0 < rowbytes ∧ 16 ≤ rowbytes / width
    · simp [classifyFormat, hc]
    · simp [classifyFormat, hc]
  · intro h
    simp [classifyFormat, h]
  · simp [classifyFormat]
  · simp [classifyFormat]

/-- C10 witness: a 16-byte-per-pixel buffer is classified float, a
4-byte-per-pixel buffer 8-bit. -/
theorem C10_witness :
    classifyFormat false 4 64 = .float32 ∧ classifyFormat false 4 16 = .int8 :=
  ⟨(C10_format_classification 4 64).1.mpr (by norm_num),
   (C10_format_classification 4 16).2.1 (by norm_num)⟩

/-! ## C1 — the blend branch computes the spec blend formula -/

/-- C1: whenever a pixel takes the blend branch (all fast-exit guards fail,
coverage strictly between the 0.0001 and 0.9999 thresholds, source alpha
nonzero), every backend and format produces
`src + (dst - src) * (coverage * normalized_alpha)` on each RGB channel,
rounded by adding 0.5 and truncating for the integer formats and unrounded
for float (the accelerated 8-bit pipeline applies that formula to every
pixel unconditionally). -/
theorem C1_blend_branch :
    (∀ (sq : ℚ → ℚ) (rc : IterateRefcon) (x y : ℤ) (inp : NatPixel),
      rc.mode = 1 → ¬inp.alpha = 0 →
      ¬rotXOf rc x y ≤ -rc.edge_width → ¬rc.edge_width ≤ rotXOf rc x y →
      ¬lineCovI rc x y ≤ 1/10000 → ¬(9999/10000 : ℚ) ≤ lineCovI rc x y →
      IteratePix8 sq rc x y inp = specPix8 inp rc.color8 (lineCovI rc x y)) ∧
    (∀ (sq : ℚ → ℚ) (rc : IterateRefcon) (x y : ℤ) (inp : NatPixel),
      ¬rc.mode = 1 → ¬inp.alpha = 0 →
      ¬rc.r_plus2 ≤ dist2Of rc x y → ¬dist2Of rc x y ≤ rc.r_minus2 →
      ¬circleCovI sq rc x y ≤ 1/10000 → ¬(9999/10000 : ℚ) ≤ circleCovI sq rc x y →
      IteratePix8 sq rc x y inp = specPix8 inp rc.color8 (circleCovI sq rc x y)) ∧
    (∀ (sq : ℚ → ℚ) (rc : IterateRefcon) (x y : ℤ) (inp : NatPixel),
      rc.mode = 1 → ¬inp.alpha = 0 →
      ¬rotXOf rc x y ≤ -rc.edge_width → ¬rc.edge_width ≤ rotXOf rc x y →
      ¬lineCovI rc x y ≤ 1/10000 → ¬(9999/10000 : ℚ) ≤ lineCovI rc x y →
      IteratePix16 sq rc x y inp = specPix16 inp (rcColor16 rc) (lineCovI rc x y)) ∧
    (∀ (sq : ℚ → ℚ) (rc : IterateRefcon) (x y : ℤ) (inp : NatPixel),
      ¬rc.mode = 1 → ¬inp.alpha = 0 →
      ¬rc.r_plus2 ≤ dist2Of rc x y → ¬dist2Of rc x y ≤ rc.r_minus2 →
      ¬circleCovI sq rc x y ≤ 1/10000 → ¬(9999/10000 : ℚ) ≤ circleCovI sq rc x y →
      IteratePix16 sq rc x y inp = specPix16 inp (rcColor16 rc) (circleCovI sq rc x y)) ∧
    (∀ (sq : ℚ → ℚ) (cs sn : ℚ) (rc : IterateRefcon) (x y : ℤ) (inp : FloatPixel),
      ¬inp.alpha ≤ 0 →
      ¬cov32 sq cs sn rc x y ≤ 1/10000 → ¬(9999/10000 : ℚ) ≤ cov32 sq cs sn rc x y →
      IteratePix32 sq cs sn rc x y inp = specPixF inp (rcColorF rc) (cov32 sq cs sn rc x y)) ∧
    (∀ (hyp : ℚ → ℚ → ℚ) (cs sn dsx dsy : ℚ) (ax ay : ℤ) (radius : ℚ) (mode : ℤ)
      (col : NatPixel) (x y : ℤ) (inp : NatPixel),
      halidePix8 hyp cs sn dsx dsy ax ay radius mode col x y inp =
        specPix8 inp col (halideCov hyp cs sn dsx dsy ax ay radius mode x y)) ∧
    (∀ (color inp : NatPixel) (rot : ℚ),
      ¬inp.alpha = 0 → ¬rot ≤ -fast8_edge_width → ¬fast8_edge_width ≤ rot →
      ¬covOfClamped (clampPM1 (rot * (1 / fast8_edge_width))) ≤ 1/10000 →
      ¬(9999/10000 : ℚ) ≤ covOfClamped (clampPM1 (rot * (1 / fast8_edge_width))) →
      fast8LinePix color inp rot =
        specPix8 inp color (covOfClamped (clampPM1 (rot * (1 / fast8_edge_width))))) ∧
    (∀ (sq : ℚ → ℚ) (radius : ℚ) (color inp : NatPixel) (dist2 : ℚ),
      ¬inp.alpha = 0 →
      ¬covOfClamped (clampPM1 ((radius - sq dist2) * (1 / fast8_edge_width))) ≤ 1/10000 →
      ¬(9999/10000 : ℚ) ≤ covOfClamped (clampPM1 ((radius - sq dist2) * (1 / fast8_edge_width))) →
      fast8CirclePix sq radius color inp dist2 =
        specPix8 inp color (covOfClamped (clampPM1 ((radius - sq dist2) * (1 / fast8_edge_width))))) ∧
    (∀ (color16 inp : NatPixel) (rot : ℚ),
      ¬inp.alpha = 0 →
      ¬covOfClamped (clampPM1 (rot * (1 / fast16_edge_width))) ≤ 1/10000 →
      ¬(9999/10000 : ℚ) ≤ covOfClamped (clampPM1 (rot * (1 / fast16_edge_width))) →
      fast16LinePix color16 inp rot =
        specPix16 inp color16 (covOfClamped (clampPM1 (rot * (1 / fast16_edge_width))))) ∧
    (∀ (sq : ℚ → ℚ) (radius : ℚ) (color16 inp : NatPixel) (dist2 : ℚ),
      ¬inp.alpha = 0 →
      ¬covOfClamped (clampPM1 ((radius - sq dist2) * (1 / fast16_edge_width))) ≤ 1/10000 →
      ¬(9999/10000 : ℚ) ≤ covOfClamped (clampPM1 ((radius - sq dist2) * (1 / fast16_edge_width))) →
      fast16CirclePix sq radius color16 inp dist2 =
        specPix16 inp color16 (covOfClamped (clampPM1 ((radius - sq dist2) * (1 / fast16_edge_width))))) ∧
    (∀ (colorF : FloatPixel) (inp : FloatPixel) (rot : ℚ),
      ¬inp.alpha ≤ 0 →
      ¬covOfClamped (clampPM1 (rot * (1 / fast32_edge_width))) ≤ 1/10000 →
      ¬(9999/10000 : ℚ) ≤ covOfClamped (clampPM1 (rot * (1 / fast32_edge_width))) →
      fast32LinePix colorF inp rot =
        specPixF inp colorF (covOfClamped (clampPM1 (rot * (1 / fast32_edge_width))))) ∧
    (∀ (sq : ℚ → ℚ) (radius : ℚ) (colorF : FloatPixel) (inp : FloatPixel) (dist2 : ℚ),
      ¬inp.alpha ≤ 0 →
      ¬covOfClamped (clampPM1 ((radius - sq dist2) * (1 / fast32_edge_width))) ≤ 1/10000 →
      ¬(9999/10000 : ℚ) ≤ covOfClamped (clampPM1 ((radius - sq dist2) * (1 / fast32_edge_width))) →
      fast32CirclePix sq radius colorF inp dist2 =
        specPixF inp colorF (covOfClamped (clampPM1 ((radius - sq dist2) * (1 / fast32_edge_width))))) := by
  refine ⟨?_, ?_, ?_, ?_, ?_, ?_, ?_, ?_, ?_, ?_, ?_, ?_⟩
  · intro sq rc x y inp hm ha h1 h2 h3 h4
    unfold IteratePix8
    rw [if_neg ha, if_pos hm, if_neg h1, if_neg h2]
    unfold iterTail8
    rw [if_neg h3, if_neg h4]
    exact blendPix8_eq_spec rc.color8 inp _
  · intro sq rc x y inp hm ha h1 h2 h3 h4
    unfold IteratePix8
    rw [if_neg ha, if_neg hm, if_neg h1, if_neg h2]
    unfold iterTail8
    rw [if_neg h3, if_neg h4]
    exact blendPix8_eq_spec rc.color8 inp _
  · intro sq rc x y inp hm ha h1 h2 h3 h4
    unfold IteratePix16
    rw [if_neg ha, if_pos hm, if_neg h1, if_neg h2]
    unfold iterTail16
    rw [if_neg h3, if_neg h4]
    exact blendPix16_eq_spec (rcColor16 rc) inp _
  · intro sq rc x y inp hm ha h1 h2 h3 h4
    unfold IteratePix16
    rw [if_neg ha, if_neg hm, if_neg h1, if_neg h2]
    unfold iterTail16
    rw [if_neg h3, if_neg h4]
    exact blendPix16_eq_spec (rcColor16 rc) inp _
  · intro sq cs sn rc x y inp ha h3 h4
    unfold IteratePix32
    rw [if_neg ha, if_neg h3, if_neg h4]
    exact blendPixF_eq_spec (rcColorF rc) inp _
  · intro hyp cs sn dsx dsy ax ay radius mode col x y inp
    simp only [halidePix8, specPix8, specRoundInt, specBlendChan]
  · intro color inp rot ha h1 h2 h3 h4
    unfold fast8LinePix
    rw [if_neg ha, if_neg h1, if_neg h2]
    unfold fastTail8
    rw [if_neg h3, if_neg h4]
    exact blendPix8_eq_spec color inp _
  · intro sq radius color inp dist2 ha h3 h4
    unfold fast8CirclePix
    rw [if_neg ha]
    unfold fastTail8
    rw [if_neg h3, if_neg h4]
    exact blendPix8_eq_spec color inp _
  · intro color16 inp rot ha h3 h4
    unfold fast16LinePix
    rw [if_neg ha]
    unfold fastTail16
    rw [if_neg h3, if_neg h4]
    exact blendPix16_eq_spec color16 inp _
  · intro sq radius color16 inp dist2 ha h3 h4
    unfold fast16CirclePix
    rw [if_neg ha]
    unfold fastTail16
    rw [if_neg h3, if_neg h4]
    exact blendPix16_eq_spec color16 inp _
  · intro colorF inp rot ha h3 h4
    unfold fast32LinePix
    rw [if_neg ha]
    unfold fastTailF
    rw [if_neg h3, if_neg h4]
    exact blendPixF_eq_spec colorF inp _
  · intro sq radius colorF inp dist2 ha h3 h4
    unfold fast32CirclePix
    rw [if_neg ha]
    unfold fastTailF
    rw [if_neg h3, if_neg h4]
    exact blendPixF_eq_spec colorF inp _

/-- C1 witness: each hypothesis-carrying conjunct applied at a concrete
blend-branch pixel (coverage 1/2), its guards discharged by evaluation. -/
theorem C1_witness :
    IteratePix8 sq4 rcLine 0 0 pxA = specPix8 pxA rcLine.color8 (lineCovI rcLine 0 0) ∧
    IteratePix8 sq4 rcCirc 2 0 pxA = specPix8 pxA rcCirc.color8 (circleCovI sq4 rcCirc 2 0) ∧
    IteratePix16 sq4 rcLine 0 0 pxA = specPix16 pxA (rcColor16 rcLine) (lineCovI rcLine 0 0) ∧
    IteratePix16 sq4 rcCirc 2 0 pxA = specPix16 pxA (rcColor16 rcCirc) (circleCovI sq4 rcCirc 2 0) ∧
    IteratePix32 sq4 1 0 rcLine 0 0 pxF = specPixF pxF (rcColorF rcLine) (cov32 sq4 1 0 rcLine 0 0) ∧
    fast8LinePix colA pxA 0 = specPix8 pxA colA (covOfClamped (clampPM1 (0 * (1 / fast8_edge_width)))) ∧
    fast8CirclePix sq4 2 colA pxA 4 =
      specPix8 pxA colA (covOfClamped (clampPM1 ((2 - sq4 4) * (1 / fast8_edge_width)))) ∧
    fast16LinePix (color16Of colA) pxA 0 =
      specPix16 pxA (color16Of colA) (covOfClamped (clampPM1 (0 * (1 / fast16_edge_width)))) ∧
    fast16CirclePix sq4 2 (color16Of colA) pxA 4 =
      specPix16 pxA (color16Of colA) (covOfClamped (clampPM1 ((2 - sq4 4) * (1 / fast16_edge_width)))) ∧
    fast32LinePix (colorFOf colA) pxF 0 =
      specPixF pxF (colorFOf colA) (covOfClamped (clampPM1 (0 * (1 / fast32_edge_width)))) ∧
    fast32CirclePix sq4 2 (colorFOf colA) pxF 4 =
      specPixF pxF (colorFOf colA) (covOfClamped (clampPM1 ((2 - sq4 4) * (1 / fast32_edge_width)))) :=
  ⟨C1_blend_branch.1 sq4 rcLine 0 0 pxA rfl (by decide)
      (by norm_num [rotXOf, fxOf, fyOf, rcLine])
      (by norm_num [rotXOf, fxOf, fyOf, rcLine])
      (by norm_num [lineCovI, rotXOf, fxOf, fyOf, rcLine])
      (by norm_num [lineCovI, rotXOf, fxOf, fyOf, rcLine]),
   C1_blend_branch.2.1 sq4 rcCirc 2 0 pxA (by norm_num [rcCirc]) (by decide)
      (by norm_num [dist2Of, fxOf, fyOf, rcCirc])
      (by norm_num [dist2Of, fxOf, fyOf, rcCirc])
      (by norm_num [circleCovI, dist2Of, fxOf, fyOf, rcCirc, sq4])
      (by norm_num [circleCovI, dist2Of, fxOf, fyOf, rcCirc, sq4]),
   C1_blend_branch.2.2.1 sq4 rcLine 0 0 pxA rfl (by decide)
      (by norm_num [rotXOf, fxOf, fyOf, rcLine])
      (by norm_num [rotXOf, fxOf, fyOf, rcLine])
      (by norm_num [lineCovI, rotXOf, fxOf, fyOf, rcLine])
      (by norm_num [lineCovI, rotXOf, fxOf, fyOf, rcLine]),
   C1_blend_branch.2.2.2.1 sq4 rcCirc 2 0 pxA (by norm_num [rcCirc]) (by decide)
      (by norm_num [dist2Of, fxOf, fyOf, rcCirc])
      (by norm_num [dist2Of, fxOf, fyOf, rcCirc])
      (by norm_num [circleCovI, dist2Of, fxOf, fyOf, rcCirc, sq4])
      (by norm_num [circleCovI, dist2Of, fxOf, fyOf, rcCirc, sq4]),
   C1_blend_branch.2.2.2.2.1 sq4 1 0 rcLine 0 0 pxF (by norm_num [pxF])
      (by norm_num [cov32, fxOf, fyOf, rcLine, min_def, max_def])
      (by norm_num [cov32, fxOf, fyOf, rcLine, min_def, max_def]),
   C1_blend_branch.2.2.2.2.2.2.1 colA pxA 0 (by decide)
      (by norm_num [fast8_edge_width])
      (by norm_num [fast8_edge_width])
      (by norm_num [covOfClamped, clampPM1, fast8_edge_width, min_def, max_def])
      (by norm_num [covOfClamped, clampPM1, fast8_edge_width, min_def, max_def]),
   C1_blend_branch.2.2.2.2.2.2.2.1 sq4 2 colA pxA 4 (by decide)
      (by norm_num [covOfClamped, clampPM1, fast8_edge_width, sq4, min_def, max_def])
      (by norm_num [covOfClamped, clampPM1, fast8_edge_width, sq4, min_def, max_def]),
   C1_blend_branch.2.2.2.2.2.2.2.2.1 (color16Of colA) pxA 0 (by decide)
      (by norm_num [covOfClamped, clampPM1, fast16_edge_width, min_def, max_def])
      (by norm_num [covOfClamped, clampPM1, fast16_edge_width, min_def, max_def]),
   C1_blend_branch.2.2.2.2.2.2.2.2.2.1 sq4 2 (color16Of colA) pxA 4 (by decide)
      (by norm_num [covOfClamped, clampPM1, fast16_edge_width, sq4, min_def, max_def])
      (by norm_num [covOfClamped, clampPM1, fast16_edge_width, sq4, min_def, max_def]),
   C1_blend_branch.2.2.2.2.2.2.2.2.2.2.1 (colorFOf colA) pxF 0 (by norm_num [pxF])
      (by norm_num [covOfClamped, clampPM1, fast32_edge_width, min_def, max_def])
      (by norm_num [covOfClamped, clampPM1, fast32_edge_width, min_def, max_def]),
   C1_blend_branch.2.2.2.2.2.2.2.2.2.2.2 sq4 2 (colorFOf colA) pxF 4 (by norm_num [pxF])
      (by norm_num [covOfClamped, clampPM1, fast32_edge_width, sq4, min_def, max_def])
      (by norm_num [covOfClamped, clampPM1, fast32_edge_width, sq4, min_def, max_def])⟩

/-! ## Alpha-channel helper lemmas -/

theorem fastTail8_alpha (c i : NatPixel) (cov : ℚ) : (fastTail8 c i cov).alpha = i.alpha := by
  unfold fastTail8
  split_ifs <;> rfl

theorem fastTail16_alpha (c i : NatPixel) (cov : ℚ) : (fastTail16 c i cov).alpha = i.alpha := by
  unfold fastTail16
  split_ifs <;> rfl

theorem fastTailF_alpha (c i : FloatPixel) (cov : ℚ) : (fastTailF c i cov).alpha = i.alpha := by
  unfold fastTailF
  split_ifs <;> rfl

theorem fast8LinePix_alpha (c i : NatPixel) (rot : ℚ) :
    (fast8LinePix c i rot).alpha = i.alpha := by
  unfold fast8LinePix
  split_ifs <;> first | rfl | exact fastTail8_alpha c i _

theorem fast16LinePix_alpha (c i : NatPixel) (rot : ℚ) :
    (fast16LinePix c i rot).alpha = i.alpha := by
  unfold fast16LinePix
  split_ifs <;> first | rfl | exact fastTail16_alpha c i _

theorem fast32LinePix_alpha (c : FloatPixel) (i : FloatPixel) (rot : ℚ) :
    (fast32LinePix c i rot).alpha = i.alpha := by
  unfold fast32LinePix
  split_ifs <;> first | rfl | exact fastTailF_alpha c i _

theorem fast8CirclePix_alpha (sq : ℚ → ℚ) (r : ℚ) (c i : NatPixel) (d2 : ℚ) :
    (fast8CirclePix sq r c i d2).alpha = i.alpha := by
  unfold fast8CirclePix
  split_ifs <;> first | rfl | exact fastTail8_alpha c i _

theorem fast16CirclePix_alpha (sq : ℚ → ℚ) (r : ℚ) (c i : NatPixel) (d2 : ℚ) :
    (fast16CirclePix sq r c i d2).alpha = i.alpha := by
  unfold fast16CirclePix
  split_ifs <;> first | rfl | exact fastTail16_alpha c i _

theorem fast32CirclePix_alpha (sq : ℚ → ℚ) (r : ℚ) (c : FloatPixel) (i : FloatPixel) (d2 : ℚ) :
    (fast32CirclePix sq r c i d2).alpha = i.alpha := by
  unfold fast32CirclePix
  split_ifs <;> first | rfl | exact fastTailF_alpha c i _

theorem fast8LineLoop_alpha (c : NatPixel) (d : ℚ) :
    ∀ (l : List NatPixel) (rot : ℚ),
      (fast8LineLoop c d l rot).map (fun p => p.alpha) = l.map (fun p => p.alpha)
  | [], _ => rfl
  | p :: rest, rot => by
    simp [fast8LineLoop, fast8LinePix_alpha, fast8LineLoop_alpha c d rest (rot + d)]

theorem fast16LineLoop_alpha (c : NatPixel) (d : ℚ) :
    ∀ (l : List NatPixel) (rot : ℚ),
      (fast16LineLoop c d l rot).map (fun p => p.alpha) = l.map (fun p => p.alpha)
  | [], _ => rfl
  | p :: rest, rot => by
    simp [fast16LineLoop, fast16LinePix_alpha, fast16LineLoop_alpha c d rest (rot + d)]

theorem fast32LineLoop_alpha (c : FloatPixel) (d : ℚ) :
    ∀ (l : List FloatPixel) (rot : ℚ),
      (fast32LineLoop c d l rot).map (fun p => p.alpha) = l.map (fun p => p.alpha)
  | [], _ => rfl
  | p :: rest, rot => by
    simp [fast32LineLoop, fast32LinePix_alpha, fast32LineLoop_alpha c d rest (rot + d)]

theorem fast8CircleLoop_alpha (sq : ℚ → ℚ) (r : ℚ) (c : NatPixel) (d : ℚ) :
    ∀ (l : List NatPixel) (rx d2 : ℚ),
      (fast8CircleLoop sq r c d l rx d2).map (fun p => p.alpha) = l.map (fun p => p.alpha)
  | [], _, _ => rfl
  | p :: rest, rx, d2 => by
    simp [fast8CircleLoop, fast8CirclePix_alpha,
      fast8CircleLoop_alpha sq r c d rest (rx + d) (d2 + 2 * d * rx + d * d)]

theorem fast16CircleLoop_alpha (sq : ℚ → ℚ) (r : ℚ) (c : NatPixel) (d : ℚ) :
    ∀ (l : List NatPixel) (rx d2 : ℚ),
      (fast16CircleLoop sq r c d l rx d2).map (fun p => p.alpha) = l.map (fun p => p.alpha)
  | [], _, _ => rfl
  | p :: rest, rx, d2 => by
    simp [fast16CircleLoop, fast16CirclePix_alpha,
      fast16CircleLoop_alpha sq r c d rest (rx + d) (d2 + 2 * d * rx + d * d)]

theorem fast32CircleLoop_alpha (sq : ℚ → ℚ) (r : ℚ) (c : FloatPixel) (d : ℚ) :
    ∀ (l : List FloatPixel) (rx d2 : ℚ),
      (fast32CircleLoop sq r c d l rx d2).map (fun p => p.alpha) = l.map (fun p => p.alpha)
  | [], _, _ => rfl
  | p :: rest, rx, d2 => by
    simp [fast32CircleLoop, fast32CirclePix_alpha,
      fast32CircleLoop_alpha sq r c d rest (rx + d) (d2 + 2 * d * rx + d * d)]

theorem iterTail8_alpha (rc : IterateRefcon) (i : NatPixel) (cov : ℚ) :
    (iterTail8 rc i cov).alpha = i.alpha := by
  unfold iterTail8
  split_ifs <;> rfl

theorem iterTail16_alpha (rc : IterateRefcon) (i : NatPixel) (cov : ℚ) :
    (iterTail16 rc i cov).alpha = i.alpha := by
  unfold iterTail16
  split_ifs <;> rfl

/-! ## C2 — alpha is always copied from the source -/

/-- C2: in every backend, every format and every mode, the output alpha of
each pixel the render writes equals the input pixel's alpha (pass-through,
solid fill, row copy, row fill and blend branches alike) — only the RGB
channels are ever modified. -/
theorem C2_alpha_preserved :
    (∀ (sq : ℚ → ℚ) (rc : IterateRefcon) (x y : ℤ) (inp : NatPixel),
      (IteratePix8 sq rc x y inp).alpha = inp.alpha) ∧
    (∀ (sq : ℚ → ℚ) (rc : IterateRefcon) (x y : ℤ) (inp : NatPixel),
      (IteratePix16 sq rc x y inp).alpha = inp.alpha) ∧
    (∀ (sq : ℚ → ℚ) (cs sn : ℚ) (rc : IterateRefcon) (x y : ℤ) (inp : FloatPixel),
      (IteratePix32 sq cs sn rc x y inp).alpha = inp.alpha) ∧
    (∀ (hyp : ℚ → ℚ → ℚ) (cs sn dsx dsy : ℚ) (ax ay : ℤ) (radius : ℚ) (mode : ℤ)
      (col : NatPixel) (x y : ℤ) (inp : NatPixel),
      (halidePix8 hyp cs sn dsx dsy ax ay radius mode col x y inp).alpha = inp.alpha) ∧
    (∀ (g : Geom) (color : NatPixel) (inRow : List NatPixel) (y : ℤ),
      (fast8LineRow g color inRow y).map (fun p => p.alpha) = inRow.map (fun p => p.alpha)) ∧
    (∀ (sq : ℚ → ℚ) (g : Geom) (color : NatPixel) (inRow : List NatPixel) (y : ℤ),
      (fast8CircleRow sq g color inRow y).map (fun p => p.alpha) = inRow.map (fun p => p.alpha)) ∧
    (∀ (g : Geom) (color16 : NatPixel) (inRow : List NatPixel) (y : ℤ),
      (fast16LineRow g color16 inRow y).map (fun p => p.alpha) = inRow.map (fun p => p.alpha)) ∧
    (∀ (sq : ℚ → ℚ) (g : Geom) (color16 : NatPixel) (inRow : List NatPixel) (y : ℤ),
      (fast16CircleRow sq g color16 inRow y).map (fun p => p.alpha) = inRow.map (fun p => p.alpha)) ∧
    (∀ (g : Geom) (colorF : FloatPixel) (inRow : List FloatPixel) (y : ℤ),
      (fast32LineRow g colorF inRow y).map (fun p => p.alpha) = inRow.map (fun p => p.alpha)) ∧
    (∀ (sq : ℚ → ℚ) (g : Geom) (colorF : FloatPixel) (inRow : List FloatPixel) (y : ℤ),
      (fast32CircleRow sq g colorF inRow y).map (fun p => p.alpha) = inRow.map (fun p => p.alpha)) := by
  refine ⟨?_, ?_, ?_, ?_, ?_, ?_, ?_, ?_, ?_, ?_⟩
  · intro sq rc x y inp
    unfold IteratePix8
    split_ifs <;> first | rfl | exact iterTail8_alpha rc inp _
  · intro sq rc x y inp
    unfold IteratePix16
    split_ifs <;> first | rfl | exact iterTail16_alpha rc inp _
  · intro sq cs sn rc x y inp
    unfold IteratePix32
    split_ifs <;> rfl
  · intro hyp cs sn dsx dsy ax ay radius mode col x y inp
    rfl
  · intro g color inRow y
    unfold fast8LineRow
    split_ifs
    · rfl
    · simp [solidRGB]
    · exact fast8LineLoop_alpha color _ inRow _
  · intro sq g color inRow y
    unfold fast8CircleRow
    split_ifs
    · rfl
    · simp [solidRGB]
    · exact fast8CircleLoop_alpha sq g.radius color _ inRow _ _
  · intro g color16 inRow y
    unfold fast16LineRow
    split_ifs
    · rfl
    · simp [solidRGB]
    · exact fast16LineLoop_alpha color16 _ inRow _
  · intro sq g color16 inRow y
    unfold fast16CircleRow
    split_ifs
    · rfl
    · simp [solidRGB]
    · exact fast16CircleLoop_alpha sq g.radius color16 _ inRow _ _
  · intro g colorF inRow y
    unfold fast32LineRow
    split_ifs
    · rfl
    · simp [solidRGBF]
    · exact fast32LineLoop_alpha colorF _ inRow _
  · intro sq g colorF inRow y
    unfold fast32CircleRow
    split_ifs
    · rfl
    · simp [solidRGBF]
    · exact fast32CircleLoop_alpha sq g.radius colorF _ inRow _ _

/-! ## C3 helper lemmas — transparent pixels in per-pixel paths -/

theorem fast8LinePix_alpha0 (c i : NatPixel) (rot : ℚ) (h : i.alpha = 0) :
    fast8LinePix c i rot = i := by
  unfold fast8LinePix
  rw [if_pos h]

theorem fast16LinePix_alpha0 (c i : NatPixel) (rot : ℚ) (h : i.alpha = 0) :
    fast16LinePix c i rot = i := by
  unfold fast16LinePix
  rw [if_pos h]

theorem fast32LinePix_alpha0 (c : FloatPixel) (i : FloatPixel) (rot : ℚ) (h : i.alpha ≤ 0) :
    fast32LinePix c i rot = i := by
  unfold fast32LinePix
  rw [if_pos h]

theorem fast8CirclePix_alpha0 (sq : ℚ → ℚ) (r : ℚ) (c i : NatPixel) (d2 : ℚ)
    (h : i.alpha = 0) : fast8CirclePix sq r c i d2 = i := by
  unfold fast8CirclePix
  rw [if_pos h]

theorem fast16CirclePix_alpha0 (sq : ℚ → ℚ) (r : ℚ) (c i : NatPixel) (d2 : ℚ)
    (h : i.alpha = 0) : fast16CirclePix sq r c i d2 = i := by
  unfold fast16CirclePix
  rw [if_pos h]

theorem fast32CirclePix_alpha0 (sq : ℚ → ℚ) (r : ℚ) (c : FloatPixel) (i : FloatPixel)
    (d2 : ℚ) (h : i.alpha ≤ 0) : fast32CirclePix sq r c i d2 = i := by
  unfold fast32CirclePix
  rw [if_pos h]

theorem forall2_self {α : Type} (R : α → α → Prop) (h : ∀ a, R a a) :
    ∀ l : List α, List.Forall₂ R l l
  | [] => .nil
  | a :: l => .cons (h a) (forall2_self R h l)

theorem fast8LineLoop_forall2 (c : NatPixel) (d : ℚ) :
    ∀ (l : List NatPixel) (rot : ℚ),
      List.Forall₂ (fun i o => i.alpha = 0 → o = i) l (fast8LineLoop c d l rot)
  | [], _ => .nil
  | p :: rest, rot =>
    .cons (fun h => fast8LinePix_alpha0 c p rot h)
      (fast8LineLoop_forall2 c d rest (rot + d))

theorem fast16LineLoop_forall2 (c : NatPixel) (d : ℚ) :
    ∀ (l : List NatPixel) (rot : ℚ),
      List.Forall₂ (fun i o => i.alpha = 0 → o = i) l (fast16LineLoop c d l rot)
  | [], _ => .nil
  | p :: rest, rot =>
    .cons (fun h => fast16LinePix_alpha0 c p rot h)
      (fast16LineLoop_forall2 c d rest (rot + d))

theorem fast32LineLoop_forall2 (c : FloatPixel) (d : ℚ) :
    ∀ (l : List FloatPixel) (rot : ℚ),
      List.Forall₂ (fun i o => i.alpha ≤ 0 → o = i) l (fast32LineLoop c d l rot)
  | [], _ => .nil
  | p :: rest, rot =>
    .cons (fun h => fast32LinePix_alpha0 c p rot h)
      (fast32LineLoop_forall2 c d rest (rot + d))

theorem fast8CircleLoop_forall2 (sq : ℚ → ℚ) (r : ℚ) (c : NatPixel) (d : ℚ) :
    ∀ (l : List NatPixel) (rx d2 : ℚ),
      List.Forall₂ (fun i o => i.alpha = 0 → o = i) l (fast8CircleLoop sq r c d l rx d2)
  | [], _, _ => .nil
  | p :: rest, rx, d2 =>
    .cons (fun h => fast8CirclePix_alpha0 sq r c p d2 h)
      (fast8CircleLoop_forall2 sq r c d rest (rx + d) (d2 + 2 * d * rx + d * d))

theorem fast16CircleLoop_forall2 (sq : ℚ → ℚ) (r : ℚ) (c : NatPixel) (d : ℚ) :
    ∀ (l : List NatPixel) (rx d2 : ℚ),
      List.Forall₂ (fun i o => i.alpha = 0 → o = i) l (fast16CircleLoop sq r c d l rx d2)
  | [], _, _ => .nil
  | p :: rest, rx, d2 =>
    .cons (fun h => fast16CirclePix_alpha0 sq r c p d2 h)
      (fast16CircleLoop_forall2 sq r c d rest (rx + d) (d2 + 2 * d * rx + d * d))

theorem fast32CircleLoop_forall2 (sq : ℚ → ℚ) (r : ℚ) (c : FloatPixel) (d : ℚ) :
    ∀ (l : List FloatPixel) (rx d2 : ℚ),
      List.Forall₂ (fun i o => i.alpha ≤ 0 → o = i) l (fast32CircleLoop sq r c d l rx d2)
  | [], _, _ => .nil
  | p :: rest, rx, d2 =>
    .cons (fun h => fast32CirclePix_alpha0 sq r c p d2 h)
      (fast32CircleLoop_forall2 sq r c d rest (rx + d) (d2 + 2 * d * rx + d * d))

theorem floor_natCast_add_half (n : ℕ) : (Int.floor ((n : ℚ) + 1/2)).toNat = n := by
  rw [show ((n : ℚ)) = ((n : ℤ) : ℚ) by push_cast; ring, add_comm, Int.floor_add_int]
  norm_num

/-! ## C3 — transparent source pixels pass through -/

/-- C3 counterexample: in the manual-loop 8-bit line path, a row that lies
entirely inside the solid region takes the row-level fill early-out, which
overwrites the RGB of a fully transparent pixel (alpha 0, RGB (5,6,7)) with
the solid colour — the output pixel is not equal to the input pixel, contrary
to the claimed unconditional pass-through. -/
theorem C3_counterexample :
    fast8LineRow geomFill colA [pxT] 0 = [⟨0, 255, 0, 0⟩] ∧
    fast8LineRow geomFill colA [pxT] 0 ≠ [pxT] := by
  have h1 : fast8LineRow geomFill colA [pxT] 0 = [⟨0, 255, 0, 0⟩] := by
    norm_num [fast8LineRow, rowRot0, rowRotN, rowRx0, rowRxN, rowRy, geomFill,
      fast8_edge_width, solidRGB, colA, pxT, min_def, max_def]
  refine ⟨h1, ?_⟩
  rw [h1]
  decide

/-- C3 amended: a pixel whose input alpha is 0 (or ≤ 0 for float) passes
through exactly in every per-pixel evaluation path — the three host-iterate
callbacks, the accelerated 8-bit pipeline, and the manual-loop per-pixel
loops — and in the manual-loop row paths whenever the row does not take the
fully-covered row-fill early-out; in that row-fill early-out the pixel's
alpha is still preserved (see the alpha theorem) but its RGB is overwritten
with the solid colour. -/
theorem C3_amended :
    (∀ (sq : ℚ → ℚ) (rc : IterateRefcon) (x y : ℤ) (inp : NatPixel),
      inp.alpha = 0 → IteratePix8 sq rc x y inp = inp) ∧
    (∀ (sq : ℚ → ℚ) (rc : IterateRefcon) (x y : ℤ) (inp : NatPixel),
      inp.alpha = 0 → IteratePix16 sq rc x y inp = inp) ∧
    (∀ (sq : ℚ → ℚ) (cs sn : ℚ) (rc : IterateRefcon) (x y : ℤ) (inp : FloatPixel),
      inp.alpha ≤ 0 → IteratePix32 sq cs sn rc x y inp = inp) ∧
    (∀ (hyp : ℚ → ℚ → ℚ) (cs sn dsx dsy : ℚ) (ax ay : ℤ) (radius : ℚ) (mode : ℤ)
      (col : NatPixel) (x y : ℤ) (inp : NatPixel),
      inp.alpha = 0 → halidePix8 hyp cs sn dsx dsy ax ay radius mode col x y inp = inp) ∧
    (∀ (g : Geom) (color : NatPixel) (inRow : List NatPixel) (y : ℤ),
      ¬fast8_edge_width ≤ min (rowRot0 g y) (rowRotN g inRow.length y) →
      List.Forall₂ (fun i o => i.alpha = 0 → o = i) inRow (fast8LineRow g color inRow y)) ∧
    (∀ (sq : ℚ → ℚ) (g : Geom) (color : NatPixel) (inRow : List NatPixel) (y : ℤ),
      ¬circRowMax g inRow.length y ≤ (g.radius - fast8_edge_width) * (g.radius - fast8_edge_width) →
      List.Forall₂ (fun i o => i.alpha = 0 → o = i) inRow (fast8CircleRow sq g color inRow y)) ∧
    (∀ (g : Geom) (color16 : NatPixel) (inRow : List NatPixel) (y : ℤ),
      ¬fast16_edge_width ≤ min (rowRot0 g y) (rowRotN g inRow.length y) →
      List.Forall₂ (fun i o => i.alpha = 0 → o = i) inRow (fast16LineRow g color16 inRow y)) ∧
    (∀ (sq : ℚ → ℚ) (g : Geom) (color16 : NatPixel) (inRow : List NatPixel) (y : ℤ),
      ¬circRowMax g inRow.length y ≤ (g.radius - fast16_edge_width) * (g.radius - fast16_edge_width) →
      List.Forall₂ (fun i o => i.alpha = 0 → o = i) inRow (fast16CircleRow sq g color16 inRow y)) ∧
    (∀ (g : Geom) (colorF : FloatPixel) (inRow : List FloatPixel) (y : ℤ),
      ¬fast32_edge_width ≤ min (rowRot0 g y) (rowRotN g inRow.length y) →
      List.Forall₂ (fun i o => i.alpha ≤ 0 → o = i) inRow (fast32LineRow g colorF inRow y)) ∧
    (∀ (sq : ℚ → ℚ) (g : Geom) (colorF : FloatPixel) (inRow : List FloatPixel) (y : ℤ),
      ¬circRowMax g inRow.length y ≤ (g.radius - fast32_edge_width) * (g.radius - fast32_edge_width) →
      List.Forall₂ (fun i o => i.alpha ≤ 0 → o = i) inRow (fast32CircleRow sq g colorF inRow y)) := by
  refine ⟨?_, ?_, ?_, ?_, ?_, ?_, ?_, ?_, ?_, ?_⟩
  · intro sq rc x y inp h
    unfold IteratePix8
    rw [if_pos h]
  · intro sq rc x y inp h
    unfold IteratePix16
    rw [if_pos h]
  · intro sq cs sn rc x y inp h
    unfold IteratePix32
    rw [if_pos h]
  · intro hyp cs sn dsx dsy ax ay radius mode col x y inp h
    obtain ⟨a, r, g, b⟩ := inp
    simp only at h
    subst h
    simp [halidePix8, show Int.floor ((2 : ℚ)⁻¹) = 0 from by norm_num]
  · intro g color inRow y hfill
    unfold fast8LineRow
    rw [if_neg hfill]
    by_cases h1 : max (rowRot0 g y) (rowRotN g inRow.length y) ≤ -fast8_edge_width
    · rw [if_pos h1]
      exact forall2_self _ (fun a h => rfl) inRow
    · rw [if_neg h1]
      exact fast8LineLoop_forall2 color _ inRow _
  · intro sq g color inRow y hfill
    unfold fast8CircleRow
    rw [if_neg hfill]
    by_cases h1 : (g.radius + fast8_edge_width) * (g.radius + fast8_edge_width) ≤ circRowMin g inRow.length y
    · rw [if_pos h1]
      exact forall2_self _ (fun a h => rfl) inRow
    · rw [if_neg h1]
      exact fast8CircleLoop_forall2 sq g.radius color _ inRow _ _
  · intro g color16 inRow y hfill
    unfold fast16LineRow
    rw [if_neg hfill]
    by_cases h1 : max (rowRot0 g y) (rowRotN g inRow.length y) ≤ -fast16_edge_width
    · rw [if_pos h1]
      exact forall2_self _ (fun a h => rfl) inRow
    · rw [if_neg h1]
      exact fast16LineLoop_forall2 color16 _ inRow _
  · intro sq g color16 inRow y hfill
    unfold fast16CircleRow
    rw [if_neg hfill]
    by_cases h1 : (g.radius + fast16_edge_width) * (g.radius + fast16_edge_width) ≤ circRowMin g inRow.length y
    · rw [if_pos h1]
      exact forall2_self _ (fun a h => rfl) inRow
    · rw [if_neg h1]
      exact fast16CircleLoop_forall2 sq g.radius color16 _ inRow _ _
  · intro g colorF inRow y hfill
    unfold fast32LineRow
    rw [if_neg hfill]
    by_cases h1 : max (rowRot0 g y) (rowRotN g inRow.length y) ≤ -fast32_edge_width
    · rw [if_pos h1]
      exact forall2_self _ (fun a h => rfl) inRow
    · rw [if_neg h1]
      exact fast32LineLoop_forall2 colorF _ inRow _
  · intro sq g colorF inRow y hfill
    unfold fast32CircleRow
    rw [if_neg hfill]
    by_cases h1 : (g.radius + fast32_edge_width) * (g.radius + fast32_edge_width) ≤ circRowMin g inRow.length y
    · rw [if_pos h1]
      exact forall2_self _ (fun a h => rfl) inRow
    · rw [if_neg h1]
      exact fast32CircleLoop_forall2 sq g.radius colorF _ inRow _ _

/-- C3 witness: the amended statement applied to concrete transparent pixels:
per-pixel paths at a transparent pixel, and rows that do not take the fill
early-out. -/
theorem C3_witness :
    IteratePix8 sq4 rcLine 0 0 pxT = pxT ∧
    IteratePix16 sq4 rcLine 0 0 pxT = pxT ∧
    IteratePix32 sq4 1 0 rcLine 0 0 pxFT = pxFT ∧
    halidePix8 (fun _ _ => 0) 1 0 1 1 0 0 2 1 colA 0 0 pxT = pxT ∧
    List.Forall₂ (fun i o => i.alpha = 0 → o = i) [pxT] (fast8LineRow geomA colA [pxT] 0) ∧
    List.Forall₂ (fun i o => i.alpha = 0 → o = i) [pxT]
      (fast8CircleRow sq4 geomFill colA [pxT] 0) ∧
    List.Forall₂ (fun i o => i.alpha = 0 → o = i) [pxT]
      (fast16LineRow geomA (color16Of colA) [pxT] 0) ∧
    List.Forall₂ (fun i o => i.alpha = 0 → o = i) [pxT]
      (fast16CircleRow sq4 geomFill (color16Of colA) [pxT] 0) ∧
    List.Forall₂ (fun i o => i.alpha ≤ 0 → o = i) [pxFT]
      (fast32LineRow geomA (colorFOf colA) [pxFT] 0) ∧
    List.Forall₂ (fun i o => i.alpha ≤ 0 → o = i) [pxFT]
      (fast32CircleRow sq4 geomFill (colorFOf colA) [pxFT] 0) :=
  ⟨C3_amended.1 sq4 rcLine 0 0 pxT rfl,
   C3_amended.2.1 sq4 rcLine 0 0 pxT rfl,
   C3_amended.2.2.1 sq4 1 0 rcLine 0 0 pxFT (by norm_num [pxFT]),
   C3_amended.2.2.2.1 (fun _ _ => 0) 1 0 1 1 0 0 2 1 colA 0 0 pxT rfl,
   C3_amended.2.2.2.2.1 geomA colA [pxT] 0
     (by norm_num [rowRot0, rowRotN, rowRx0, rowRxN, rowRy, geomA, fast8_edge_width, min_def]),
   C3_amended.2.2.2.2.2.1 sq4 geomFill colA [pxT] 0
     (by norm_num [circRowMax, rowRx0, rowRxN, rowRy2, rowRy, geomFill, fast8_edge_width,
        min_def, max_def]),
   C3_amended.2.2.2.2.2.2.1 geomA (color16Of colA) [pxT] 0
     (by norm_num [rowRot0, rowRotN, rowRx0, rowRxN, rowRy, geomA, fast16_edge_width, min_def]),
   C3_amended.2.2.2.2.2.2.2.1 sq4 geomFill (color16Of colA) [pxT] 0
     (by norm_num [circRowMax, rowRx0, rowRxN, rowRy2, rowRy, geomFill, fast16_edge_width,
        min_def, max_def]),
   C3_amended.2.2.2.2.2.2.2.2.1 geomA (colorFOf colA) [pxFT] 0
     (by norm_num [rowRot0, rowRotN, rowRx0, rowRxN, rowRy, geomA, fast32_edge_width, min_def]),
   C3_amended.2.2.2.2.2.2.2.2.2 sq4 geomFill (colorFOf colA) [pxFT] 0
     (by norm_num [circRowMax, rowRx0, rowRxN, rowRy2, rowRy, geomFill, fast32_edge_width,
        min_def, max_def])⟩

/-! ## C5 helper lemmas — worker abort behaviour -/

theorem fast16LineWorker_abort (abort : ℕ → ℤ) (g : Geom) (color16 : NatPixel)
    (inRow prevRow : ℕ → List NatPixel) :
    ∀ (n k s : ℕ), k < n → (∀ j, j < k → abort (s + j) = 0) → abort (s + k) ≠ 0 →
      fast16LineWorker abort g color16 inRow prevRow s n =
        (abort (s + k),
         (List.range k).map (fun i => fast16LineRow g color16 (inRow (s + i)) ((s + i : ℕ) : ℤ))
           ++ prevSlice prevRow (s + k) (n - k)) := by
  intro n
  induction n with
  | zero => intro k s hk _ _; exact absurd hk (Nat.not_lt_zero k)
  | succ m ih =>
    intro k s hk hpre habort
    cases k with
    | zero =>
      have ha : abort s ≠ 0 := by simpa using habort
      simp only [fast16LineWorker, if_pos ha]
      simp [prevSlice]
    | succ j =>
      have h0 : abort s = 0 := by simpa using hpre 0 (Nat.succ_pos j)
      simp only [fast16LineWorker, if_neg (not_not_intro h0)]
      have hrec := ih j (s + 1) (by omega)
        (fun i hi => by
          have h2 := hpre (i + 1) (by omega)
          rw [show s + 1 + i = s + (i + 1) by omega]
          exact h2)
        (by
          rw [show s + 1 + j = s + (j + 1) by omega]
          exact habort)
      rw [hrec]
      have e1 : s + 1 + j = s + (j + 1) := by omega
      have e2 : m - j = m + 1 - (j + 1) := by omega
      rw [e1, e2]
      refine Prod.ext rfl ?_
      rw [List.range_succ_eq_map, List.map_cons, List.map_map, List.cons_append]
      refine congrArg₂ _ (by simp) (congrArg₂ _ ?_ rfl)
      refine List.map_congr_left (fun i _ => ?_)
      simp only [Function.comp]
      rw [show s + 1 + i = s + Nat.succ i by omega]

theorem fast16CircleWorker_abort (abort : ℕ → ℤ) (sq : ℚ → ℚ) (g : Geom)
    (color16 : NatPixel) (inRow prevRow : ℕ → List NatPixel) :
    ∀ (n k s : ℕ), k < n → (∀ j, j < k → abort (s + j) = 0) → abort (s + k) ≠ 0 →
      fast16CircleWorker abort sq g color16 inRow prevRow s n =
        (abort (s + k),
         (List.range k).map (fun i => fast16CircleRow sq g color16 (inRow (s + i)) ((s + i : ℕ) : ℤ))
           ++ prevSlice prevRow (s + k) (n - k)) := by
  intro n
  induction n with
  | zero => intro k s hk _ _; exact absurd hk (Nat.not_lt_zero k)
  | succ m ih =>
    intro k s hk hpre habort
    cases k with
    | zero =>
      have ha : abort s ≠ 0 := by simpa using habort
      simp only [fast16CircleWorker, if_pos ha]
      simp [prevSlice]
    | succ j =>
      have h0 : abort s = 0 := by simpa using hpre 0 (Nat.succ_pos j)
      simp only [fast16CircleWorker, if_neg (not_not_intro h0)]
      have hrec := ih j (s + 1) (by omega)
        (fun i hi => by
          have h2 := hpre (i + 1) (by omega)
          rw [show s + 1 + i = s + (i + 1) by omega]
          exact h2)
        (by
          rw [show s + 1 + j = s + (j + 1) by omega]
          exact habort)
      rw [hrec]
      have e1 : s + 1 + j = s + (j + 1) := by omega
      have e2 : m - j = m + 1 - (j + 1) := by omega
      rw [e1, e2]
      refine Prod.ext rfl ?_
      rw [List.range_succ_eq_map, List.map_cons, List.map_map, List.cons_append]
      refine congrArg₂ _ (by simp) (congrArg₂ _ ?_ rfl)
      refine List.map_congr_left (fun i _ => ?_)
      simp only [Function.comp]
      rw [show s + 1 + i = s + Nat.succ i by omega]

theorem fast32LineWorker_abort (abort : ℕ → ℤ) (g : Geom) (colorF : FloatPixel)
    (inRow prevRow : ℕ → List FloatPixel) :
    ∀ (n k s : ℕ), k < n → (∀ j, j < k → abort (s + j) = 0) → abort (s + k) ≠ 0 →
      fast32LineWorker abort g colorF inRow prevRow s n =
        (abort (s + k),
         (List.range k).map (fun i => fast32LineRow g colorF (inRow (s + i)) ((s + i : ℕ) : ℤ))
           ++ prevSliceF prevRow (s + k) (n - k)) := by
  intro n
  induction n with
  | zero => intro k s hk _ _; exact absurd hk (Nat.not_lt_zero k)
  | succ m ih =>
    intro k s hk hpre habort
    cases k with
    | zero =>
      have ha : abort s ≠ 0 := by simpa using habort
      simp only [fast32LineWorker, if_pos ha]
      simp [prevSliceF]
    | succ j =>
      have h0 : abort s = 0 := by simpa using hpre 0 (Nat.succ_pos j)
      simp only [fast32LineWorker, if_neg (not_not_intro h0)]
      have hrec := ih j (s + 1) (by omega)
        (fun i hi => by
          have h2 := hpre (i + 1) (by omega)
          rw [show s + 1 + i = s + (i + 1) by omega]
          exact h2)
        (by
          rw [show s + 1 + j = s + (j + 1) by omega]
          exact habort)
      rw [hrec]
      have e1 : s + 1 + j = s + (j + 1) := by omega
      have e2 : m - j = m + 1 - (j + 1) := by omega
      rw [e1, e2]
      refine Prod.ext rfl ?_
      rw [List.range_succ_eq_map, List.map_cons, List.map_map, List.cons_append]
      refine congrArg₂ _ (by simp) (congrArg₂ _ ?_ rfl)
      refine List.map_congr_left (fun i _ => ?_)
      simp only [Function.comp]
      rw [show s + 1 + i = s + Nat.succ i by omega]

theorem fast32CircleWorker_abort (abort : ℕ → ℤ) (sq : ℚ → ℚ) (g : Geom)
    (colorF : FloatPixel) (inRow prevRow : ℕ → List FloatPixel) :
    ∀ (n k s : ℕ), k < n → (∀ j, j < k → abort (s + j) = 0) → abort (s + k) ≠ 0 →
      fast32CircleWorker abort sq g colorF inRow prevRow s n =
        (abort (s + k),
         (List.range k).map (fun i => fast32CircleRow sq g colorF (inRow (s + i)) ((s + i : ℕ) : ℤ))
           ++ prevSliceF prevRow (s + k) (n - k)) := by
  intro n
  induction n with
  | zero => intro k s hk _ _; exact absurd hk (Nat.not_lt_zero k)
  | succ m ih =>
    intro k s hk hpre habort
    cases k with
    | zero =>
      have ha : abort s ≠ 0 := by simpa using habort
      simp only [fast32CircleWorker, if_pos ha]
      simp [prevSliceF]
    | succ j =>
      have h0 : abort s = 0 := by simpa using hpre 0 (Nat.succ_pos j)
      simp only [fast32CircleWorker, if_neg (not_not_intro h0)]
      have hrec := ih j (s + 1) (by omega)
        (fun i hi => by
          have h2 := hpre (i + 1) (by omega)
          rw [show s + 1 + i = s + (i + 1) by omega]
          exact h2)
        (by
          rw [show s + 1 + j = s + (j + 1) by omega]
          exact habort)
      rw [hrec]
      have e1 : s + 1 + j = s + (j + 1) := by omega
      have e2 : m - j = m + 1 - (j + 1) := by omega
      rw [e1, e2]
      refine Prod.ext rfl ?_
      rw [List.range_succ_eq_map, List.map_cons, List.map_map, List.cons_append]
      refine congrArg₂ _ (by simp) (congrArg₂ _ ?_ rfl)
      refine List.map_congr_left (fun i _ => ?_)
      simp only [Function.comp]
      rw [show s + 1 + i = s + Nat.succ i by omega]

theorem fast8LineWorker_ignores_abort (abort abort2 : ℕ → ℤ) (g : Geom)
    (color : NatPixel) (inRow : ℕ → List NatPixel) :
    ∀ (n s : ℕ),
      fast8LineWorker abort g color inRow s n = fast8LineWorker abort2 g color inRow s n ∧
      (fast8LineWorker abort g color inRow s n).1 = 0 := by
  intro n
  induction n with
  | zero => intro s; exact ⟨rfl, rfl⟩
  | succ m ih =>
    intro s
    constructor
    · simp only [fast8LineWorker]
      rw [(ih (s + 1)).1]
    · simp only [fast8LineWorker]
      exact (ih (s + 1)).2

theorem fast8CircleWorker_ignores_abort (abort abort2 : ℕ → ℤ) (sq : ℚ → ℚ) (g : Geom)
    (color : NatPixel) (inRow : ℕ → List NatPixel) :
    ∀ (n s : ℕ),
      fast8CircleWorker abort sq g color inRow s n = fast8CircleWorker abort2 sq g color inRow s n ∧
      (fast8CircleWorker abort sq g color inRow s n).1 = 0 := by
  intro n
  induction n with
  | zero => intro s; exact ⟨rfl, rfl⟩
  | succ m ih =>
    intro s
    constructor
    · simp only [fast8CircleWorker]
      rw [(ih (s + 1)).1]
    · simp only [fast8CircleWorker]
      exact (ih (s + 1)).2

/-! ## C5 — cooperative cancellation at row granularity -/

/-- C5 counterexample: with a host that reports abort code 42 at every poll,
the 8-bit manual-loop line worker still returns `PF_Err_NONE` (0), not the
host abort error — the 8-bit fast path contains no `PF_ABORT` poll at all,
contrary to the claim that every pixel format checks cancellation per row. -/
theorem C5_counterexample :
    (fast8LineWorker (fun _ => 42) geomFill colA (fun _ => [pxT]) 0 1).1 = 0 ∧
    (fast8LineWorker (fun _ => 42) geomFill colA (fun _ => [pxT]) 0 1).1 ≠ 42 := by
  have h : (fast8LineWorker (fun _ => 42) geomFill colA (fun _ => [pxT]) 0 1).1 = 0 := rfl
  exact ⟨h, by rw [h]; decide⟩

/-- C5 amended: in the manual-loop backend the 16-bit and float workers poll
the host abort interface before each row; when the first nonzero abort code
appears at row `s + k`, the worker returns exactly that code, having
processed only rows `s .. s+k-1` and leaving rows `s+k` onward at their
previous contents.  The 8-bit workers never poll the interface: their result
is independent of the abort state and their returned error is always
`PF_Err_NONE` (0). -/
theorem C5_amended :
    (∀ (abort : ℕ → ℤ) (g : Geom) (color16 : NatPixel)
       (inRow prevRow : ℕ → List NatPixel) (n k s : ℕ),
       k < n → (∀ j, j < k → abort (s + j) = 0) → abort (s + k) ≠ 0 →
       fast16LineWorker abort g color16 inRow prevRow s n =
         (abort (s + k),
          (List.range k).map (fun i => fast16LineRow g color16 (inRow (s + i)) ((s + i : ℕ) : ℤ))
            ++ prevSlice prevRow (s + k) (n - k))) ∧
    (∀ (abort : ℕ → ℤ) (sq : ℚ → ℚ) (g : Geom) (color16 : NatPixel)
       (inRow prevRow : ℕ → List NatPixel) (n k s : ℕ),
       k < n → (∀ j, j < k → abort (s + j) = 0) → abort (s + k) ≠ 0 →
       fast16CircleWorker abort sq g color16 inRow prevRow s n =
         (abort (s + k),
          (List.range k).map (fun i => fast16CircleRow sq g color16 (inRow (s + i)) ((s + i : ℕ) : ℤ))
            ++ prevSlice prevRow (s + k) (n - k))) ∧
    (∀ (abort : ℕ → ℤ) (g : Geom) (colorF : FloatPixel)
       (inRow prevRow : ℕ → List FloatPixel) (n k s : ℕ),
       k < n → (∀ j, j < k → abort (s + j) = 0) → abort (s + k) ≠ 0 →
       fast32LineWorker abort g colorF inRow prevRow s n =
         (abort (s + k),
          (List.range k).map (fun i => fast32LineRow g colorF (inRow (s + i)) ((s + i : ℕ) : ℤ))
            ++ prevSliceF prevRow (s + k) (n - k))) ∧
    (∀ (abort : ℕ → ℤ) (sq : ℚ → ℚ) (g : Geom) (colorF : FloatPixel)
       (inRow prevRow : ℕ → List FloatPixel) (n k s : ℕ),
       k < n → (∀ j, j < k → abort (s + j) = 0) → abort (s + k) ≠ 0 →
       fast32CircleWorker abort sq g colorF inRow prevRow s n =
         (abort (s + k),
          (List.range k).map (fun i => fast32CircleRow sq g colorF (inRow (s + i)) ((s + i : ℕ) : ℤ))
            ++ prevSliceF prevRow (s + k) (n - k))) ∧
    (∀ (abort abort2 : ℕ → ℤ) (g : Geom) (color : NatPixel)
       (inRow : ℕ → List NatPixel) (n s : ℕ),
       fast8LineWorker abort g color inRow s n = fast8LineWorker abort2 g color inRow s n ∧
       (fast8LineWorker abort g color inRow s n).1 = 0) ∧
    (∀ (abort abort2 : ℕ → ℤ) (sq : ℚ → ℚ) (g : Geom) (color : NatPixel)
       (inRow : ℕ → List NatPixel) (n s : ℕ),
       fast8CircleWorker abort sq g color inRow s n = fast8CircleWorker abort2 sq g color inRow s n ∧
       (fast8CircleWorker abort sq g color inRow s n).1 = 0) :=
  ⟨fun abort g c16 iR pR n k s => fast16LineWorker_abort abort g c16 iR pR n k s,
   fun abort sq g c16 iR pR n k s => fast16CircleWorker_abort abort sq g c16 iR pR n k s,
   fun abort g cF iR pR n k s => fast32LineWorker_abort abort g cF iR pR n k s,
   fun abort sq g cF iR pR n k s => fast32CircleWorker_abort abort sq g cF iR pR n k s,
   fun abort abort2 g c iR n s => fast8LineWorker_ignores_abort abort abort2 g c iR n s,
   fun abort abort2 sq g c iR n s => fast8CircleWorker_ignores_abort abort abort2 sq g c iR n s⟩

/-- C5 witness: the amended statement applied to a host that aborts with
code 42 at the first poll — each 16-bit/float worker returns 42 and leaves
its single row at the previous contents. -/
theorem C5_witness :
    fast16LineWorker (fun _ => 42) geomA (color16Of colA) (fun _ => [pxA]) (fun _ => [pxT]) 0 1
      = (42, [[pxT]]) ∧
    fast16CircleWorker (fun _ => 42) sq4 geomA (color16Of colA) (fun _ => [pxA]) (fun _ => [pxT]) 0 1
      = (42, [[pxT]]) ∧
    fast32LineWorker (fun _ => 42) geomA (colorFOf colA) (fun _ => [pxF]) (fun _ => [pxFT]) 0 1
      = (42, [[pxFT]]) ∧
    fast32CircleWorker (fun _ => 42) sq4 geomA (colorFOf colA) (fun _ => [pxF]) (fun _ => [pxFT]) 0 1
      = (42, [[pxFT]]) := by
  refine ⟨?_, ?_, ?_, ?_⟩
  · have h := C5_amended.1 (fun _ => 42) geomA (color16Of colA) (fun _ => [pxA]) (fun _ => [pxT])
      1 0 0 (by omega) (fun j hj => absurd hj (Nat.not_lt_zero j)) (by decide)
    simpa [prevSlice] using h
  · have h := C5_amended.2.1 (fun _ => 42) sq4 geomA (color16Of colA) (fun _ => [pxA])
      (fun _ => [pxT]) 1 0 0 (by omega) (fun j hj => absurd hj (Nat.not_lt_zero j)) (by decide)
    simpa [prevSlice] using h
  · have h := C5_amended.2.2.1 (fun _ => 42) geomA (colorFOf colA) (fun _ => [pxF])
      (fun _ => [pxFT]) 1 0 0 (by omega) (fun j hj => absurd hj (Nat.not_lt_zero j)) (by decide)
    simpa [prevSliceF] using h
  · have h := C5_amended.2.2.2.1 (fun _ => 42) sq4 geomA (colorFOf colA) (fun _ => [pxF])
      (fun _ => [pxFT]) 1 0 0 (by omega) (fun j hj => absurd hj (Nat.not_lt_zero j)) (by decide)
    simpa [prevSliceF] using h

/-! ## C8 — row partition of the manual-loop backend -/

/-- C8: for any nonempty image, the manual-loop backend's row partition is
sound — each spawned worker gets a nonempty contiguous block of at most
`ceil(height / num_threads)` rows, the blocks are pairwise disjoint and
cover `[0, height)` exactly, and between 1 and `height` workers are
spawned. -/
theorem C8_row_partition (hw height : ℕ) (hh : 1 ≤ height) :
    specRowPartitionOK hw height := by
  unfold specRowPartitionOK
  set T := num_threads hw height with hT
  set rpt := rows_per_thread height T with hrptdef
  have hT1 : 1 ≤ T := by
    rw [hT]
    unfold num_threads
    exact le_min (le_max_left 1 hw) (le_max_left 1 height)
  have hrpt1 : 1 ≤ rpt := by
    rw [hrptdef]
    unfold rows_per_thread
    rw [Nat.le_div_iff_mul_le (by omega : 0 < T)]
    omega
  have hcov : height ≤ T * rpt := by
    have hdm := Nat.div_add_mod (height + T - 1) T
    have hmod : (height + T - 1) % T < T := Nat.mod_lt _ (by omega)
    have hq : T * rpt = T * ((height + T - 1) / T) := by rw [hrptdef]; rfl
    obtain ⟨M, hM⟩ : ∃ M, T * ((height + T - 1) / T) = M := ⟨_, rfl⟩
    obtain ⟨R, hR⟩ : ∃ R, (height + T - 1) % T = R := ⟨_, rfl⟩
    rw [hM, hR] at hdm
    rw [hR] at hmod
    rw [hq, hM]
    omega
  refine ⟨?_, ?_, ?_, ?_, ?_⟩
  · intro t ht
    obtain ⟨htT, hstart⟩ := Finset.mem_filter.mp ht
    unfold threadRowRange
    have h1 : t * rpt < t * rpt + rpt := by omega
    have h2 : min (t * rpt + rpt) height ≤ t * rpt + rpt := min_le_left _ _
    exact ⟨lt_min h1 hstart, by omega⟩
  · have key : ∀ a b, a ∈ spawnedThreads T rpt height → b ∈ spawnedThreads T rpt height →
        a < b → ∀ y, y < height →
        ¬((threadRowRange rpt height a).1 ≤ y ∧ y < (threadRowRange rpt height a).2 ∧
          (threadRowRange rpt height b).1 ≤ y ∧ y < (threadRowRange rpt height b).2) := by
      intro a b _ _ hab y _ hc
      obtain ⟨h1, h2, h3, h4⟩ := hc
      unfold threadRowRange at h1 h2 h3 h4
      have h5 : y < a * rpt + rpt := lt_of_lt_of_le h2 (min_le_left _ _)
      have h6 : a * rpt + rpt = (a + 1) * rpt := (Nat.succ_mul a rpt).symm
      have h7 : (a + 1) * rpt ≤ b * rpt := Nat.mul_le_mul_right rpt (by omega)
      have h8 : y < b * rpt := by
        rw [h6] at h5
        exact lt_of_lt_of_le h5 h7
      exact absurd h3 (by omega)
    intro t1 ht1 t2 ht2 hne y hy
    rcases Nat.lt_or_ge t1 t2 with h | h
    · exact key t1 t2 ht1 ht2 h y hy
    · have h2 : t2 < t1 := by omega
      intro hc
      exact key t2 t1 ht2 ht1 h2 y hy ⟨hc.2.2.1, hc.2.2.2, hc.1, hc.2.1⟩
  · intro y hy
    have hrpt0 : 0 < rpt := by omega
    have hsm : y / rpt * rpt ≤ y := Nat.div_mul_le_self y rpt
    have hdm := Nat.div_add_mod y rpt
    have hm := Nat.mod_lt y hrpt0
    have hlt : y < y / rpt * rpt + rpt := by
      calc y = rpt * (y / rpt) + y % rpt := hdm.symm
        _ < rpt * (y / rpt) + rpt := Nat.add_lt_add_left hm _
        _ = y / rpt * rpt + rpt := by rw [Nat.mul_comm]
    have htT : y / rpt < T := by
      rw [Nat.div_lt_iff_lt_mul hrpt0]
      calc y < height := hy
        _ ≤ T * rpt := hcov
    refine ⟨y / rpt, Finset.mem_filter.mpr ⟨Finset.mem_range.mpr htT, by omega⟩, ?_, ?_⟩
    · exact hsm
    · exact lt_min hlt hy
  · have h0mem : 0 ∈ spawnedThreads T rpt height :=
      Finset.mem_filter.mpr ⟨Finset.mem_range.mpr (by omega), by simpa using hh⟩
    have := Finset.card_pos.mpr ⟨0, h0mem⟩
    omega
  · have hsub : spawnedThreads T rpt height ⊆ Finset.range height := by
      intro t ht
      obtain ⟨_, hstart⟩ := Finset.mem_filter.mp ht
      have h1 : t ≤ t * rpt := Nat.le_mul_of_pos_right t (by omega)
      exact Finset.mem_range.mpr (by omega)
    have := Finset.card_le_card hsub
    simpa [Finset.card_range] using this

/-- C8 witness: the partition property evaluated at a 4-row image with 3
hardware threads. -/
theorem C8_witness : specRowPartitionOK 3 4 :=
  C8_row_partition 3 4 (by norm_num)

end SepColor
